import Mathlib

/-!
# Verification of the maya-classfile-ir IR-construction layer

Shallow embedding of `crates/maya-classfile-ir/src/{class_pool,code,attribute}.rs`:
the constant-pool resolver, the instruction decoder and the attribute decoder.

Conventions:
* Machine integers (`u8`, `u16`, `u32`) are `Nat`; byte streams are `List Nat`.
* `i32`/`i64` values are `Int` obtained from big-endian bytes with explicit
  two's-complement conversion; `f32`/`f64` values are represented by their
  IEEE bit patterns (a `Nat`), since no code in this layer inspects the
  floating-point value itself.
* Fallible Rust code returns `Outcome`: `ok` for `Ok(..)`, `error` for a
  propagated `Err(..)` (the typed-failure channel), and `panicked` for a
  `panic!`/`todo!`/`unreachable!`/index-out-of-bounds/arithmetic-overflow
  abort of the process.  Keeping the two failure channels distinct is the
  point of several theorems below.
* Stateful reads from a byte cursor become the explicit state-passing monad
  `ParseM`: a function from the byte list and current position to an
  `Outcome` of a value and the next position.
* Recursive resolution and recursive attribute nesting are given a `fuel`
  parameter to make them structurally recursive; the Rust source recurses
  unboundedly there (and overflows the stack on cyclic pools).  Fuel
  exhaustion is modelled as a `panicked` outcome.  All positive theorems
  hold for every sufficiently large fuel, and the canonical entry points
  pick a fuel that provably suffices on the well-formed inputs concerned.
-/

set_option maxHeartbeats 1000000
set_option maxRecDepth 4000

namespace Maya

/-- Embeds `IRClassfileError` (class_pool.rs).  The variant `Mutf8` is in
src; the error enum's further variants are not visible in src (the byte
cursor and `String::from_utf8` conversion come from excluded crates), so
`Truncated` (a read past the end of the remaining bytes, the spec's
`TruncatedAttribute`/`TruncatedOperand`) and `Utf8Conv` (a failed
`String::from_utf8`) are modelled from the spec (§7 of the design). -/
inductive IRClassfileError : Type where
  | Mutf8 : IRClassfileError
  | Utf8Conv : IRClassfileError
  | Truncated : IRClassfileError
deriving DecidableEq, Repr

/-- Result of running a piece of Rust code: a value, a propagated typed
error, or a process abort (`panic!`-family).  -/
inductive Outcome (α : Type) : Type where
  | ok (val : α) : Outcome α
  | error (e : IRClassfileError) : Outcome α
  | panicked (msg : String) : Outcome α
deriving Repr

def Outcome.bind {α β : Type} (o : Outcome α) (f : α → Outcome β) : Outcome β :=
  match o with
  | .ok a => f a
  | .error e => .error e
  | .panicked m => .panicked m

instance : Monad Outcome where
  pure := Outcome.ok
  bind := Outcome.bind

@[simp] theorem Outcome.bind_ok {α β : Type} (a : α) (f : α → Outcome β) :
    Outcome.bind (.ok a) f = f a := rfl

@[simp] theorem Outcome.bind_error {α β : Type} (e : IRClassfileError) (f : α → Outcome β) :
    Outcome.bind (.error e) f = .error e := rfl

@[simp] theorem Outcome.bind_panicked {α β : Type} (m : String) (f : α → Outcome β) :
    Outcome.bind (.panicked m) f = .panicked m := rfl

@[simp] theorem Outcome.outcome_bind_def {α β : Type} (o : Outcome α) (f : α → Outcome β) :
    (o >>= f) = Outcome.bind o f := rfl

@[simp] theorem Outcome.outcome_pure_def {α : Type} (a : α) :
    (pure a : Outcome α) = .ok a := rfl

theorem Outcome.bind_eq_ok {α β : Type} {o : Outcome α} {f : α → Outcome β} {b : β}
    (h : Outcome.bind o f = .ok b) : ∃ a, o = .ok a ∧ f a = .ok b := by
  cases o with
  | ok a => exact ⟨a, rfl, h⟩
  | error e => simp [Outcome.bind] at h
  | panicked m => simp [Outcome.bind] at h

/-! ## The byte-cursor monad

The excluded `maya_bytes::BytesReadExt` cursor primitive, modelled from the
spec (§1, §6): big-endian reads that advance a position and fail when the
declared/implied length exceeds the remaining bytes. -/

def ParseM (α : Type) : Type := List Nat → Nat → Outcome (α × Nat)

def ParseM.pure {α : Type} (a : α) : ParseM α := fun _ pos => .ok (a, pos)

def ParseM.bind {α β : Type} (p : ParseM α) (f : α → ParseM β) : ParseM β :=
  fun bs pos =>
    match p bs pos with
    | .ok (a, pos₁) => f a bs pos₁
    | .error e => .error e
    | .panicked m => .panicked m

instance : Monad ParseM where
  pure := ParseM.pure
  bind := ParseM.bind

@[simp] theorem ParseM.parsem_bind_def {α β : Type} (p : ParseM α) (f : α → ParseM β) :
    (p >>= f) = ParseM.bind p f := rfl

@[simp] theorem ParseM.parsem_pure_def {α : Type} (a : α) :
    (pure a : ParseM α) = ParseM.pure a := rfl

@[simp] theorem ParseM.pure_apply {α : Type} (a : α) (bs : List Nat) (pos : Nat) :
    ParseM.pure a bs pos = .ok (a, pos) := rfl

theorem ParseM.bind_apply {α β : Type} (p : ParseM α) (f : α → ParseM β)
    (bs : List Nat) (pos : Nat) :
    ParseM.bind p f bs pos =
      match p bs pos with
      | .ok (a, pos₁) => f a bs pos₁
      | .error e => .error e
      | .panicked m => .panicked m := rfl

/-- Lift a pure fallible computation (one that does not touch the cursor)
into the cursor monad. -/
def liftO {α : Type} (o : Outcome α) : ParseM α :=
  fun _ pos =>
    match o with
    | .ok a => .ok (a, pos)
    | .error e => .error e
    | .panicked m => .panicked m

/-- A `panic!` reached while parsing. -/
def panicM {α : Type} (msg : String) : ParseM α := liftO (.panicked msg)

/-- `read_u8`. -/
def readU8 : ParseM Nat :=
  fun bs pos =>
    match bs.get? pos with
    | some b => .ok (b, pos + 1)
    | none => .error .Truncated

/-- `read_u16` (big-endian). -/
def readU16 : ParseM Nat := do
  let hi ← readU8
  let lo ← readU8
  pure (hi * 256 + lo)

/-- `read_u32` (big-endian). -/
def readU32 : ParseM Nat := do
  let b₁ ← readU16
  let b₂ ← readU16
  pure (b₁ * 65536 + b₂)

/-- A `for _ in 0..n { v.push(p?) }` loop: run `p` exactly `n` times,
collecting results in order. -/
def forN {α : Type} (n : Nat) (p : ParseM α) : ParseM (List α) :=
  match n with
  | 0 => pure []
  | k + 1 => do
      let a ← p
      let rest ← forN k p
      pure (a :: rest)

/-- Reading `n` raw bytes is the `n`-fold `read_u8` loop. -/
def readBytes (n : Nat) : ParseM (List Nat) := forN n readU8

/-- `read_to_vec`: all remaining bytes (used only by `SourceDebugExtension`). -/
def readToEnd : ParseM (List Nat) :=
  fun bs pos => .ok (bs.drop pos, max pos bs.length)

/-! ## Big-endian integer views of raw byte arrays -/

/-- The unsigned big-endian value of a byte list. -/
def beVal (bytes : List Nat) : Nat := bytes.foldl (fun acc b => acc * 256 + b) 0

/-- `i32::from_be_bytes`: two's complement at width 32. -/
def i32ofBe (bytes : List Nat) : Int :=
  let n : Nat := beVal bytes % 2 ^ 32
  if n < 2 ^ 31 then (n : Int) else (n : Int) - 2 ^ 32

/-- `i64::from_be_bytes`: two's complement at width 64. -/
def i64ofBe (bytes : List Nat) : Int :=
  let n : Nat := beVal bytes % 2 ^ 64
  if n < 2 ^ 63 then (n : Int) else (n : Int) - 2 ^ 64

/-- The type of the out-of-scope modified-UTF-8 decoder primitive
(bytes → string or failure, spec §1). -/
abbrev Mutf8Decoder : Type := List Nat → Option String

/-- `f32::from_be_bytes`, viewed as its IEEE bit pattern. -/
def f32BitsOfBe (bytes : List Nat) : Nat := beVal bytes % 2 ^ 32

/-- `f64::from_be_bytes`, viewed as its IEEE bit pattern. -/
def f64BitsOfBe (bytes : List Nat) : Nat := beVal bytes % 2 ^ 64

/-! ## Raw constant-pool tags (IO layer)

`IOCpTag` lives in the excluded `maya_classfile_io` crate.  Modelled from
the spec (§3, §6: "a flat table of untyped/variant constant-pool entries"
with "inline data or 1-based indices into the same table") and from the
exact fields destructured by `IRCpTag::parse_tag` in class_pool.rs. -/
inductive IOCpTag : Type where
  | Utf8 (length : Nat) (bytes : List Nat) : IOCpTag
  | Integer (bytes : List Nat) : IOCpTag
  | Float (bytes : List Nat) : IOCpTag
  | Long (bytes : List Nat) : IOCpTag
  | Double (bytes : List Nat) : IOCpTag
  | Class (name_index : Nat) : IOCpTag
  | String (utf8_index : Nat) : IOCpTag
  | FieldRef (class_index name_and_ty_index : Nat) : IOCpTag
  | MethodRef (class_index name_and_ty_index : Nat) : IOCpTag
  | InterfaceMethodRef (class_index name_and_ty_index : Nat) : IOCpTag
  | NameAndType (name_index descriptor_index : Nat) : IOCpTag
  | MethodHandle (reference_kind reference_index : Nat) : IOCpTag
  | MethodType (descriptor_index : Nat) : IOCpTag
  | InvokeDynamic (bootstrap_method_attr_index name_and_ty_index : Nat) : IOCpTag
deriving DecidableEq, Repr

/-- Embeds `IRMethodRefKind` (class_pool.rs:16). -/
inductive IRMethodRefKind : Type where
  | GetField | GetStatic | PutField | PutStatic
  | InvokeVirtual | InvokeStatic | InvokeSpecial
  | NewInvokeSpecial | InvokeInterface
deriving DecidableEq, Repr

/-- Embeds `IRMethodRefKind::from` (class_pool.rs:29).  The catch-all arm of
the source is `panic!("fuck you")`: an abort, not a typed error. -/
def IRMethodRefKind.fromByte (value : Nat) : Outcome IRMethodRefKind :=
  match value with
  | 1 => .ok .GetField
  | 2 => .ok .GetStatic
  | 3 => .ok .PutField
  | 4 => .ok .PutStatic
  | 5 => .ok .InvokeVirtual
  | 6 => .ok .InvokeStatic
  | 7 => .ok .InvokeSpecial
  | 8 => .ok .NewInvokeSpecial
  | 9 => .ok .InvokeInterface
  | _ => .panicked "fuck you"

/-- Embeds `CPUtf8Ref` (class_pool.rs:46): shared string data plus the
1-based pool index it came from. -/
structure CPUtf8Ref : Type where
  data : String
  index : Nat
deriving DecidableEq, Repr

/-- Embeds `CPNameAndTypeRef` (class_pool.rs:68). -/
structure CPNameAndTypeRef : Type where
  index : Nat
  name : CPUtf8Ref
  ty : CPUtf8Ref
deriving DecidableEq, Repr

/-! `IRCpTag` (class_pool.rs:84) together with `CPMethodHandleRef`
(class_pool.rs:76); they are mutually recursive through the method
handle's boxed referenced tag. -/
mutual
inductive IRCpTag : Type where
  | Utf8 (data : String) : IRCpTag
  | Integer (value : Int) : IRCpTag
  | Float (bits : Nat) : IRCpTag
  | Long (value : Int) : IRCpTag
  | Double (bits : Nat) : IRCpTag
  | Class (r : CPUtf8Ref) : IRCpTag
  | String (r : CPUtf8Ref) : IRCpTag
  | FieldRef (class_index : Nat) (name_and_ty : CPNameAndTypeRef) : IRCpTag
  | MethodRef (class_index : Nat) (name_and_ty : CPNameAndTypeRef) : IRCpTag
  | InterfaceMethodRef (class_index : Nat) (name_and_ty : CPNameAndTypeRef) : IRCpTag
  | NameAndType (name : CPUtf8Ref) (descriptor : CPUtf8Ref) : IRCpTag
  | MethodHandle (r : CPMethodHandleRef) : IRCpTag
  | MethodType (r : CPUtf8Ref) : IRCpTag
  | InvokeDynamic (bootstrap_method_attr_index : Nat) (name_and_ty : CPNameAndTypeRef) : IRCpTag

inductive CPMethodHandleRef : Type where
  | mk (kind : IRMethodRefKind) (ref_tag : IRCpTag) (ref_index : Nat) : CPMethodHandleRef
end

/-- Embeds `CPUtf8Ref::new` (class_pool.rs:52).  Note the source accepts a
resolved `Class` tag as well as a `Utf8` tag, and aborts on anything else. -/
def CPUtf8Ref.new (index : Nat) (utf8_tag : IRCpTag) : Outcome CPUtf8Ref :=
  match utf8_tag with
  | .Class this => .ok ⟨this.data, index⟩
  | .Utf8 data => .ok ⟨data, index⟩
  | _ => .panicked "trying to make CPUtf8Ref from non-utf8 tag"

/-- Discriminant of a raw tag (the `cp_info` tag byte of the format). -/
def IOCpTag.kindCode : IOCpTag → Nat
  | .Utf8 .. => 1
  | .Integer _ => 3
  | .Float _ => 4
  | .Long _ => 5
  | .Double _ => 6
  | .Class _ => 7
  | .String _ => 8
  | .FieldRef .. => 9
  | .MethodRef .. => 10
  | .InterfaceMethodRef .. => 11
  | .NameAndType .. => 12
  | .MethodHandle .. => 15
  | .MethodType _ => 16
  | .InvokeDynamic .. => 18

/-- Discriminant of a resolved tag (the `repr(u8)` values of `IRCpTag`). -/
def IRCpTag.kindCode : IRCpTag → Nat
  | .Utf8 _ => 1
  | .Integer _ => 3
  | .Float _ => 4
  | .Long _ => 5
  | .Double _ => 6
  | .Class _ => 7
  | .String _ => 8
  | .FieldRef .. => 9
  | .MethodRef .. => 10
  | .InterfaceMethodRef .. => 11
  | .NameAndType .. => 12
  | .MethodHandle _ => 15
  | .MethodType _ => 16
  | .InvokeDynamic .. => 18

/-! ## The constant-pool resolver -/

/-- Embeds `IRCpTag::parse_tag` (class_pool.rs:130).  `mutf8` is the
out-of-scope modified-UTF-8 decoder, passed as a parameter; `fuel` bounds
the reference-chasing recursion depth and is never exhausted on acyclic
input (the source recurses unboundedly and aborts on a cyclic pool by
exhausting the call stack).  The local `pidx` is the `parse_tag_idx!`
macro (class_pool.rs:119): consult the memo `formed_tags` at the 1-based
index, falling back to resolving `raw_tags[idx - 1]` directly.  Index `0`
underflows the `-1` of the source (an abort), and an out-of-range fallback
index aborts via the `raw_tags[..]` indexing. -/
def IRCpTag.parse_tag (mutf8 : Mutf8Decoder) :
    Nat → IOCpTag → List IOCpTag → List IRCpTag → Outcome IRCpTag
  | 0, _, _, _ => .panicked "recursion limit"
  | f + 1, tag, raw_tags, formed_tags =>
    let pidx : Nat → Outcome IRCpTag := fun idx =>
      if idx = 0 then .panicked "attempt to subtract with overflow"
      else
        match formed_tags[idx - 1]? with
        | some t => .ok t
        | none =>
            match raw_tags[idx - 1]? with
            | some t => IRCpTag.parse_tag mutf8 f t raw_tags formed_tags
            | none => .panicked "index out of bounds"
    match tag with
    | .Utf8 _length bytes =>
        match mutf8 bytes with
        | some s => .ok (.Utf8 s)
        | none => .error .Mutf8
    | .Integer bytes => .ok (.Integer (i32ofBe bytes))
    | .Float bytes => .ok (.Float (f32BitsOfBe bytes))
    | .Long bytes => .ok (.Long (i64ofBe bytes))
    | .Double bytes => .ok (.Double (f64BitsOfBe bytes))
    | .Class name_index =>
        Outcome.bind (pidx name_index) fun utf8_tag =>
        Outcome.bind (CPUtf8Ref.new name_index utf8_tag) fun r =>
        .ok (.Class r)
    | .String utf8_index =>
        Outcome.bind (pidx utf8_index) fun utf8_tag =>
        Outcome.bind (CPUtf8Ref.new utf8_index utf8_tag) fun r =>
        .ok (.String r)
    | .FieldRef class_index name_and_ty_index =>
        Outcome.bind (pidx name_and_ty_index) fun t =>
        match t with
        | .NameAndType name descriptor =>
            .ok (.FieldRef class_index ⟨name_and_ty_index, name, descriptor⟩)
        | _ => .panicked "expected NameAndType"
    | .MethodRef class_index name_and_ty_index =>
        Outcome.bind (pidx name_and_ty_index) fun t =>
        match t with
        | .NameAndType name descriptor =>
            .ok (.MethodRef class_index ⟨name_and_ty_index, name, descriptor⟩)
        | _ => .panicked "expected NameAndType"
    | .InterfaceMethodRef class_index name_and_ty_index =>
        Outcome.bind (pidx name_and_ty_index) fun t =>
        match t with
        | .NameAndType name descriptor =>
            .ok (.InterfaceMethodRef class_index ⟨name_and_ty_index, name, descriptor⟩)
        | _ => .panicked "expected NameAndType"
    | .NameAndType name_index descriptor_index =>
        Outcome.bind (pidx name_index) fun name_tag =>
        Outcome.bind (pidx descriptor_index) fun descriptor_tag =>
        Outcome.bind (CPUtf8Ref.new name_index name_tag) fun name =>
        Outcome.bind (CPUtf8Ref.new descriptor_index descriptor_tag) fun descriptor =>
        .ok (.NameAndType name descriptor)
    | .MethodHandle reference_kind_idx reference_index =>
        Outcome.bind (IRMethodRefKind.fromByte reference_kind_idx) fun kind =>
        Outcome.bind (pidx reference_index) fun tag =>
        .ok (.MethodHandle (.mk kind tag reference_index))
    | .MethodType descriptor_index =>
        Outcome.bind (pidx descriptor_index) fun tag =>
        Outcome.bind (CPUtf8Ref.new descriptor_index tag) fun r =>
        .ok (.MethodType r)
    | .InvokeDynamic bootstrap_method_attr_index name_and_ty_index =>
        Outcome.bind (pidx name_and_ty_index) fun t =>
        match t with
        | .NameAndType name descriptor =>
            .ok (.InvokeDynamic bootstrap_method_attr_index
                  ⟨name_and_ty_index, name, descriptor⟩)
        | _ => .panicked "expected NameAndType"

/-- The `parse_tag_idx!` macro (class_pool.rs:119) as a standalone
function, definitionally equal to the local `pidx` of `parse_tag`. -/
def IRCpTag.parse_tag_idx (mutf8 : Mutf8Decoder) (fuel : Nat) (idx : Nat)
    (raw_tags : List IOCpTag) (formed_tags : List IRCpTag) : Outcome IRCpTag :=
  if idx = 0 then .panicked "attempt to subtract with overflow"
  else
    match formed_tags[idx - 1]? with
    | some t => .ok t
    | none =>
        match raw_tags[idx - 1]? with
        | some t => IRCpTag.parse_tag mutf8 fuel t raw_tags formed_tags
        | none => .panicked "index out of bounds"

/-- Embeds the loop body accumulation of `IRCpTag::from_io`
(class_pool.rs:252): each raw tag is resolved against the full raw table
and the already-formed prefix, then appended. -/
def IRCpTag.fromIoAux (mutf8 : Mutf8Decoder) (raw_tags : List IOCpTag) :
    List IOCpTag → List IRCpTag → Outcome (List IRCpTag)
  | [], res => .ok res
  | t :: ts, res =>
      match IRCpTag.parse_tag mutf8 (raw_tags.length + 1) t raw_tags res with
      | .ok v => IRCpTag.fromIoAux mutf8 raw_tags ts (res ++ [v])
      | .error e => .error e
      | .panicked m => .panicked m

/-- Embeds `IRCpTag::from_io` (class_pool.rs:252): resolve the whole raw
table in forward order.  The fuel `raw_tags.length + 1` bounds reference
chains, which on acyclic input never revisit a position and hence never
reach the bound. -/
def IRCpTag.fromIoPool (mutf8 : Mutf8Decoder) (raw_tags : List IOCpTag) :
    Outcome (List IRCpTag) :=
  IRCpTag.fromIoAux mutf8 raw_tags raw_tags []

/-- Modelled from the spec: the out-of-scope `maya_mutf8::decode` primitive
("bytes → string or failure", §1; a propagated text-decode failure is one
of the error kinds, §7).  This concrete instance decodes printable
ASCII-range byte sequences and fails on anything else — in particular on
`0xFF`, which is also invalid in real modified UTF-8.  All general theorems
are parametric in the decoder; this instance only feeds witnesses and
counterexamples. -/
def mutf8Ascii (bytes : List Nat) : Option String :=
  if bytes.all (fun b => 1 ≤ b && b ≤ 127) then
    some (String.mk (bytes.map Char.ofNat))
  else
    none

theorem fromIoPool_utf8_eval :
    IRCpTag.fromIoPool mutf8Ascii [.Utf8 1 [120]] = .ok [.Utf8 "x"] := rfl

theorem fromIoPool_backref_eval :
    IRCpTag.fromIoPool mutf8Ascii [.Utf8 1 [120], .Class 1] =
      .ok [.Utf8 "x", .Class ⟨"x", 1⟩] := rfl

theorem fromIoPool_fwdref_eval :
    IRCpTag.fromIoPool mutf8Ascii [.Class 2, .Utf8 1 [120]] =
      .ok [.Class ⟨"x", 2⟩, .Utf8 "x"] := rfl

/-! ### Unfolding equations of `parse_tag` at successor fuel -/

namespace IRCpTag

variable (mutf8 : Mutf8Decoder) (f : Nat) (raw_tags : List IOCpTag)
  (formed_tags : List IRCpTag)

theorem parse_tag_zero (tag : IOCpTag) :
    parse_tag mutf8 0 tag raw_tags formed_tags = .panicked "recursion limit" := rfl

theorem parse_tag_utf8 (length : Nat) (bytes : List Nat) :
    parse_tag mutf8 (f + 1) (.Utf8 length bytes) raw_tags formed_tags =
      match mutf8 bytes with
      | some s => .ok (.Utf8 s)
      | none => .error .Mutf8 := rfl

theorem parse_tag_integer (bytes : List Nat) :
    parse_tag mutf8 (f + 1) (.Integer bytes) raw_tags formed_tags =
      .ok (.Integer (i32ofBe bytes)) := rfl

theorem parse_tag_float (bytes : List Nat) :
    parse_tag mutf8 (f + 1) (.Float bytes) raw_tags formed_tags =
      .ok (.Float (f32BitsOfBe bytes)) := rfl

theorem parse_tag_long (bytes : List Nat) :
    parse_tag mutf8 (f + 1) (.Long bytes) raw_tags formed_tags =
      .ok (.Long (i64ofBe bytes)) := rfl

theorem parse_tag_double (bytes : List Nat) :
    parse_tag mutf8 (f + 1) (.Double bytes) raw_tags formed_tags =
      .ok (.Double (f64BitsOfBe bytes)) := rfl

theorem parse_tag_class (name_index : Nat) :
    parse_tag mutf8 (f + 1) (.Class name_index) raw_tags formed_tags =
      Outcome.bind (parse_tag_idx mutf8 f name_index raw_tags formed_tags)
        (fun utf8_tag =>
          Outcome.bind (CPUtf8Ref.new name_index utf8_tag) fun r =>
          .ok (.Class r)) := rfl

theorem parse_tag_string (utf8_index : Nat) :
    parse_tag mutf8 (f + 1) (.String utf8_index) raw_tags formed_tags =
      Outcome.bind (parse_tag_idx mutf8 f utf8_index raw_tags formed_tags)
        (fun utf8_tag =>
          Outcome.bind (CPUtf8Ref.new utf8_index utf8_tag) fun r =>
          .ok (.String r)) := rfl

theorem parse_tag_field_ref (class_index name_and_ty_index : Nat) :
    parse_tag mutf8 (f + 1) (.FieldRef class_index name_and_ty_index) raw_tags formed_tags =
      Outcome.bind (parse_tag_idx mutf8 f name_and_ty_index raw_tags formed_tags)
        (fun t =>
          match t with
          | .NameAndType name descriptor =>
              .ok (.FieldRef class_index ⟨name_and_ty_index, name, descriptor⟩)
          | _ => .panicked "expected NameAndType") := rfl

theorem parse_tag_method_ref (class_index name_and_ty_index : Nat) :
    parse_tag mutf8 (f + 1) (.MethodRef class_index name_and_ty_index) raw_tags formed_tags =
      Outcome.bind (parse_tag_idx mutf8 f name_and_ty_index raw_tags formed_tags)
        (fun t =>
          match t with
          | .NameAndType name descriptor =>
              .ok (.MethodRef class_index ⟨name_and_ty_index, name, descriptor⟩)
          | _ => .panicked "expected NameAndType") := rfl

theorem parse_tag_interface_method_ref (class_index name_and_ty_index : Nat) :
    parse_tag mutf8 (f + 1) (.InterfaceMethodRef class_index name_and_ty_index)
        raw_tags formed_tags =
      Outcome.bind (parse_tag_idx mutf8 f name_and_ty_index raw_tags formed_tags)
        (fun t =>
          match t with
          | .NameAndType name descriptor =>
              .ok (.InterfaceMethodRef class_index ⟨name_and_ty_index, name, descriptor⟩)
          | _ => .panicked "expected NameAndType") := rfl

theorem parse_tag_name_and_type (name_index descriptor_index : Nat) :
    parse_tag mutf8 (f + 1) (.NameAndType name_index descriptor_index)
        raw_tags formed_tags =
      Outcome.bind (parse_tag_idx mutf8 f name_index raw_tags formed_tags)
        (fun name_tag =>
          Outcome.bind (parse_tag_idx mutf8 f descriptor_index raw_tags formed_tags)
            fun descriptor_tag =>
          Outcome.bind (CPUtf8Ref.new name_index name_tag) fun name =>
          Outcome.bind (CPUtf8Ref.new descriptor_index descriptor_tag) fun descriptor =>
          .ok (.NameAndType name descriptor)) := rfl

theorem parse_tag_method_handle (reference_kind_idx reference_index : Nat) :
    parse_tag mutf8 (f + 1) (.MethodHandle reference_kind_idx reference_index)
        raw_tags formed_tags =
      Outcome.bind (IRMethodRefKind.fromByte reference_kind_idx) (fun kind =>
        Outcome.bind (parse_tag_idx mutf8 f reference_index raw_tags formed_tags)
          fun tag =>
        .ok (.MethodHandle (.mk kind tag reference_index))) := rfl

theorem parse_tag_method_type (descriptor_index : Nat) :
    parse_tag mutf8 (f + 1) (.MethodType descriptor_index) raw_tags formed_tags =
      Outcome.bind (parse_tag_idx mutf8 f descriptor_index raw_tags formed_tags)
        (fun tag =>
          Outcome.bind (CPUtf8Ref.new descriptor_index tag) fun r =>
          .ok (.MethodType r)) := rfl

theorem parse_tag_invoke_dynamic (bootstrap_method_attr_index name_and_ty_index : Nat) :
    parse_tag mutf8 (f + 1) (.InvokeDynamic bootstrap_method_attr_index name_and_ty_index)
        raw_tags formed_tags =
      Outcome.bind (parse_tag_idx mutf8 f name_and_ty_index raw_tags formed_tags)
        (fun t =>
          match t with
          | .NameAndType name descriptor =>
              .ok (.InvokeDynamic bootstrap_method_attr_index
                    ⟨name_and_ty_index, name, descriptor⟩)
          | _ => .panicked "expected NameAndType") := rfl

theorem parse_tag_idx_congr {mutf8 : Mutf8Decoder} {f f' : Nat}
    {raw : List IOCpTag} {formed : List IRCpTag}
    (h : ∀ t v, parse_tag mutf8 f t raw formed = .ok v →
      parse_tag mutf8 f' t raw formed = .ok v) :
    ∀ idx v, parse_tag_idx mutf8 f idx raw formed = .ok v →
      parse_tag_idx mutf8 f' idx raw formed = .ok v := by
  intro idx v hv
  unfold parse_tag_idx at hv ⊢
  by_cases h0 : idx = 0
  · rw [if_pos h0] at hv; simp at hv
  · rw [if_neg h0] at hv ⊢
    cases hm : formed[idx - 1]? with
    | some t => rw [hm] at hv; exact hv
    | none =>
        rw [hm] at hv
        cases hr : raw[idx - 1]? with
        | some t => rw [hr] at hv; exact h _ _ hv
        | none => rw [hr] at hv; simp at hv

/-- Raising the fuel by one preserves every successful resolution. -/
theorem parse_tag_mono_succ (mutf8 : Mutf8Decoder) (raw : List IOCpTag) :
    ∀ f : Nat, ∀ t formed v, parse_tag mutf8 f t raw formed = .ok v →
      parse_tag mutf8 (f + 1) t raw formed = .ok v := by
  intro f
  induction f with
  | zero =>
      intro t formed v h
      rw [parse_tag_zero] at h
      simp at h
  | succ f ih =>
      intro t formed v h
      cases t with
      | Utf8 length bytes =>
          rw [parse_tag_utf8] at h ⊢; exact h
      | Integer bytes => rw [parse_tag_integer] at h ⊢; exact h
      | Float bytes => rw [parse_tag_float] at h ⊢; exact h
      | Long bytes => rw [parse_tag_long] at h ⊢; exact h
      | Double bytes => rw [parse_tag_double] at h ⊢; exact h
      | Class name_index =>
          rw [parse_tag_class] at h ⊢
          obtain ⟨u, hu, h₂⟩ := Outcome.bind_eq_ok h
          rw [parse_tag_idx_congr (fun t v => ih t formed v) _ _ hu]
          simpa using h₂
      | String utf8_index =>
          rw [parse_tag_string] at h ⊢
          obtain ⟨u, hu, h₂⟩ := Outcome.bind_eq_ok h
          rw [parse_tag_idx_congr (fun t v => ih t formed v) _ _ hu]
          simpa using h₂
      | FieldRef class_index name_and_ty_index =>
          rw [parse_tag_field_ref] at h ⊢
          obtain ⟨u, hu, h₂⟩ := Outcome.bind_eq_ok h
          rw [parse_tag_idx_congr (fun t v => ih t formed v) _ _ hu]
          simpa using h₂
      | MethodRef class_index name_and_ty_index =>
          rw [parse_tag_method_ref] at h ⊢
          obtain ⟨u, hu, h₂⟩ := Outcome.bind_eq_ok h
          rw [parse_tag_idx_congr (fun t v => ih t formed v) _ _ hu]
          simpa using h₂
      | InterfaceMethodRef class_index name_and_ty_index =>
          rw [parse_tag_interface_method_ref] at h ⊢
          obtain ⟨u, hu, h₂⟩ := Outcome.bind_eq_ok h
          rw [parse_tag_idx_congr (fun t v => ih t formed v) _ _ hu]
          simpa using h₂
      | NameAndType name_index descriptor_index =>
          rw [parse_tag_name_and_type] at h ⊢
          obtain ⟨u₁, hu₁, h₂⟩ := Outcome.bind_eq_ok h
          obtain ⟨u₂, hu₂, h₃⟩ := Outcome.bind_eq_ok h₂
          rw [parse_tag_idx_congr (fun t v => ih t formed v) _ _ hu₁]
          rw [Outcome.bind_ok, parse_tag_idx_congr (fun t v => ih t formed v) _ _ hu₂]
          simpa using h₃
      | MethodHandle reference_kind_idx reference_index =>
          rw [parse_tag_method_handle] at h ⊢
          obtain ⟨k, hk, h₂⟩ := Outcome.bind_eq_ok h
          obtain ⟨u, hu, h₃⟩ := Outcome.bind_eq_ok h₂
          rw [hk, Outcome.bind_ok, parse_tag_idx_congr (fun t v => ih t formed v) _ _ hu]
          simpa using h₃
      | MethodType descriptor_index =>
          rw [parse_tag_method_type] at h ⊢
          obtain ⟨u, hu, h₂⟩ := Outcome.bind_eq_ok h
          rw [parse_tag_idx_congr (fun t v => ih t formed v) _ _ hu]
          simpa using h₂
      | InvokeDynamic bootstrap_method_attr_index name_and_ty_index =>
          rw [parse_tag_invoke_dynamic] at h ⊢
          obtain ⟨u, hu, h₂⟩ := Outcome.bind_eq_ok h
          rw [parse_tag_idx_congr (fun t v => ih t formed v) _ _ hu]
          simpa using h₂

/-- Fuel monotonicity of `parse_tag`. -/
theorem parse_tag_mono (mutf8 : Mutf8Decoder) (raw : List IOCpTag)
    {f f' : Nat} (hle : f ≤ f') {t : IOCpTag} {formed : List IRCpTag} {v : IRCpTag}
    (h : parse_tag mutf8 f t raw formed = .ok v) :
    parse_tag mutf8 f' t raw formed = .ok v := by
  induction hle with
  | refl => exact h
  | step hle ih => exact parse_tag_mono_succ mutf8 raw _ t formed v ih

/-- Fuel monotonicity of `parse_tag_idx`. -/
theorem parse_tag_idx_mono (mutf8 : Mutf8Decoder) (raw : List IOCpTag)
    {f f' : Nat} (hle : f ≤ f') {idx : Nat} {formed : List IRCpTag} {v : IRCpTag}
    (h : parse_tag_idx mutf8 f idx raw formed = .ok v) :
    parse_tag_idx mutf8 f' idx raw formed = .ok v :=
  parse_tag_idx_congr (fun _ _ hv => parse_tag_mono mutf8 raw hle hv) idx v h

/-- A successful resolution always produces the typed counterpart of the
raw tag it started from: the constructor (the format's tag byte) agrees. -/
theorem parse_tag_kind {mutf8 : Mutf8Decoder} {f : Nat} {t : IOCpTag}
    {raw : List IOCpTag} {formed : List IRCpTag} {v : IRCpTag}
    (h : parse_tag mutf8 f t raw formed = .ok v) :
    v.kindCode = t.kindCode := by
  cases f with
  | zero => rw [parse_tag_zero] at h; simp at h
  | succ f =>
    cases t with
    | Utf8 length bytes =>
        rw [parse_tag_utf8] at h
        cases hm : mutf8 bytes with
        | some s => rw [hm] at h; cases h; rfl
        | none => rw [hm] at h; simp at h
    | Integer bytes => rw [parse_tag_integer] at h; cases h; rfl
    | Float bytes => rw [parse_tag_float] at h; cases h; rfl
    | Long bytes => rw [parse_tag_long] at h; cases h; rfl
    | Double bytes => rw [parse_tag_double] at h; cases h; rfl
    | Class name_index =>
        rw [parse_tag_class] at h
        obtain ⟨u, hu, h₂⟩ := Outcome.bind_eq_ok h
        obtain ⟨r, hr, h₃⟩ := Outcome.bind_eq_ok h₂
        cases h₃; rfl
    | String utf8_index =>
        rw [parse_tag_string] at h
        obtain ⟨u, hu, h₂⟩ := Outcome.bind_eq_ok h
        obtain ⟨r, hr, h₃⟩ := Outcome.bind_eq_ok h₂
        cases h₃; rfl
    | FieldRef class_index name_and_ty_index =>
        rw [parse_tag_field_ref] at h
        obtain ⟨u, hu, h₂⟩ := Outcome.bind_eq_ok h
        cases u <;> first | (cases h₂; rfl) | simp at h₂
    | MethodRef class_index name_and_ty_index =>
        rw [parse_tag_method_ref] at h
        obtain ⟨u, hu, h₂⟩ := Outcome.bind_eq_ok h
        cases u <;> first | (cases h₂; rfl) | simp at h₂
    | InterfaceMethodRef class_index name_and_ty_index =>
        rw [parse_tag_interface_method_ref] at h
        obtain ⟨u, hu, h₂⟩ := Outcome.bind_eq_ok h
        cases u <;> first | (cases h₂; rfl) | simp at h₂
    | NameAndType name_index descriptor_index =>
        rw [parse_tag_name_and_type] at h
        obtain ⟨u₁, hu₁, h₂⟩ := Outcome.bind_eq_ok h
        obtain ⟨u₂, hu₂, h₃⟩ := Outcome.bind_eq_ok h₂
        obtain ⟨n, hn, h₄⟩ := Outcome.bind_eq_ok h₃
        obtain ⟨d, hd, h₅⟩ := Outcome.bind_eq_ok h₄
        cases h₅; rfl
    | MethodHandle reference_kind_idx reference_index =>
        rw [parse_tag_method_handle] at h
        obtain ⟨k, hk, h₂⟩ := Outcome.bind_eq_ok h
        obtain ⟨u, hu, h₃⟩ := Outcome.bind_eq_ok h₂
        cases h₃; rfl
    | MethodType descriptor_index =>
        rw [parse_tag_method_type] at h
        obtain ⟨u, hu, h₂⟩ := Outcome.bind_eq_ok h
        obtain ⟨r, hr, h₃⟩ := Outcome.bind_eq_ok h₂
        cases h₃; rfl
    | InvokeDynamic bootstrap_method_attr_index name_and_ty_index =>
        rw [parse_tag_invoke_dynamic] at h
        obtain ⟨u, hu, h₂⟩ := Outcome.bind_eq_ok h
        cases u <;> first | (cases h₂; rfl) | simp at h₂

end IRCpTag

/-! ### Soundness of the memoized forward pass -/

/-- `Resolves mutf8 raw t v`: the raw tag `t` resolves directly (with an
empty memo, hence purely by chasing raw references) to `v`. -/
def Resolves (mutf8 : Mutf8Decoder) (raw : List IOCpTag) (t : IOCpTag) (v : IRCpTag) : Prop :=
  ∃ f, IRCpTag.parse_tag mutf8 f t raw [] = .ok v

/-- A memo list is coherent when it is no longer than the raw table and
each formed entry is the direct resolution of the raw tag at the same
position. -/
structure Coherent (mutf8 : Mutf8Decoder) (raw : List IOCpTag)
    (formed : List IRCpTag) : Prop where
  length_le : formed.length ≤ raw.length
  mem : ∀ (j : Nat) (t : IOCpTag) (v : IRCpTag), raw[j]? = some t →
    formed[j]? = some v → Resolves mutf8 raw t v

theorem coherent_nil (mutf8 : Mutf8Decoder) (raw : List IOCpTag) :
    Coherent mutf8 raw [] := by
  constructor
  · exact Nat.zero_le _
  · intro j t v ht hv
    simp at hv

theorem Resolves.det {mutf8 : Mutf8Decoder} {raw : List IOCpTag}
    {t : IOCpTag} {v v' : IRCpTag}
    (h : Resolves mutf8 raw t v) (h' : Resolves mutf8 raw t v') : v = v' := by
  obtain ⟨f, hf⟩ := h
  obtain ⟨f', hf'⟩ := h'
  have h₁ := IRCpTag.parse_tag_mono mutf8 raw (Nat.le_max_left f f') hf
  have h₂ := IRCpTag.parse_tag_mono mutf8 raw (Nat.le_max_right f f') hf'
  rw [h₁] at h₂
  exact (Outcome.ok.injEq _ _ ▸ h₂ : v = v')

theorem Resolves.kind {mutf8 : Mutf8Decoder} {raw : List IOCpTag}
    {t : IOCpTag} {v : IRCpTag} (h : Resolves mutf8 raw t v) :
    v.kindCode = t.kindCode := by
  obtain ⟨f, hf⟩ := h
  exact IRCpTag.parse_tag_kind hf

/-- A successful `parse_tag_idx` on an empty memo is exactly a direct
resolution of the raw target. -/
theorem parse_tag_idx_nil (mutf8 : Mutf8Decoder) (f : Nat) {idx : Nat}
    (hne : idx ≠ 0) {raw : List IOCpTag} {t : IOCpTag}
    (ht : raw[idx - 1]? = some t) :
    IRCpTag.parse_tag_idx mutf8 f idx raw [] = IRCpTag.parse_tag mutf8 f t raw [] := by
  unfold IRCpTag.parse_tag_idx
  rw [if_neg hne]
  simp only [List.getElem?_nil]
  rw [ht]

/-- Any success of the memoized resolver against a coherent memo is also a
direct resolution (so the memo never changes a resolvable value), together
with the corresponding fact for `parse_tag_idx`. -/
theorem parse_sound (mutf8 : Mutf8Decoder) (raw : List IOCpTag)
    (formed : List IRCpTag) (hco : Coherent mutf8 raw formed) :
    ∀ f : Nat,
      (∀ t v, IRCpTag.parse_tag mutf8 f t raw formed = .ok v →
        Resolves mutf8 raw t v) ∧
      (∀ idx v, IRCpTag.parse_tag_idx mutf8 f idx raw formed = .ok v →
        idx ≠ 0 ∧ ∃ t, raw[idx - 1]? = some t ∧ Resolves mutf8 raw t v) := by
  intro f
  induction f with
  | zero =>
      constructor
      · intro t v h
        rw [IRCpTag.parse_tag_zero] at h
        simp at h
      · intro idx v h
        unfold IRCpTag.parse_tag_idx at h
        by_cases h0 : idx = 0
        · rw [if_pos h0] at h; simp at h
        · rw [if_neg h0] at h
          refine ⟨h0, ?_⟩
          cases hm : formed[idx - 1]? with
          | some w =>
              rw [hm] at h
              have hj : idx - 1 < formed.length := by
                by_contra hlt
                rw [List.getElem?_eq_none (Nat.le_of_not_lt hlt)] at hm
                simp at hm
              have hjr : idx - 1 < raw.length := Nat.lt_of_lt_of_le hj hco.length_le
              obtain ⟨t, ht⟩ : ∃ t, raw[idx - 1]? = some t :=
                ⟨raw[idx - 1], List.getElem?_eq_getElem hjr⟩
              refine ⟨t, ht, ?_⟩
              have hv : w = v := by simpa using h
              exact hv ▸ hco.mem _ _ _ ht hm
          | none =>
              rw [hm] at h
              cases hr : raw[idx - 1]? with
              | some t =>
                  rw [hr] at h
                  replace h : IRCpTag.parse_tag mutf8 0 t raw formed = Outcome.ok v := h
                  rw [IRCpTag.parse_tag_zero] at h
                  simp at h
              | none => rw [hr] at h; simp at h
  | succ f ih =>
      have hP : ∀ t v, IRCpTag.parse_tag mutf8 (f + 1) t raw formed = .ok v →
          Resolves mutf8 raw t v := by
        intro t v h
        cases t with
        | Utf8 length bytes =>
            rw [IRCpTag.parse_tag_utf8] at h
            exact ⟨1, by rw [IRCpTag.parse_tag_utf8]; exact h⟩
        | Integer bytes => exact ⟨1, h⟩
        | Float bytes => exact ⟨1, h⟩
        | Long bytes => exact ⟨1, h⟩
        | Double bytes => exact ⟨1, h⟩
        | Class name_index =>
            rw [IRCpTag.parse_tag_class] at h
            obtain ⟨u, hu, h₂⟩ := Outcome.bind_eq_ok h
            obtain ⟨hne, t', ht', f₀, hf₀⟩ := ih.2 _ _ hu
            refine ⟨f₀ + 1, ?_⟩
            rw [IRCpTag.parse_tag_class, parse_tag_idx_nil mutf8 f₀ hne ht', hf₀,
              Outcome.bind_ok]
            exact h₂
        | String utf8_index =>
            rw [IRCpTag.parse_tag_string] at h
            obtain ⟨u, hu, h₂⟩ := Outcome.bind_eq_ok h
            obtain ⟨hne, t', ht', f₀, hf₀⟩ := ih.2 _ _ hu
            refine ⟨f₀ + 1, ?_⟩
            rw [IRCpTag.parse_tag_string, parse_tag_idx_nil mutf8 f₀ hne ht', hf₀,
              Outcome.bind_ok]
            exact h₂
        | FieldRef class_index name_and_ty_index =>
            rw [IRCpTag.parse_tag_field_ref] at h
            obtain ⟨u, hu, h₂⟩ := Outcome.bind_eq_ok h
            obtain ⟨hne, t', ht', f₀, hf₀⟩ := ih.2 _ _ hu
            refine ⟨f₀ + 1, ?_⟩
            rw [IRCpTag.parse_tag_field_ref, parse_tag_idx_nil mutf8 f₀ hne ht', hf₀,
              Outcome.bind_ok]
            exact h₂
        | MethodRef class_index name_and_ty_index =>
            rw [IRCpTag.parse_tag_method_ref] at h
            obtain ⟨u, hu, h₂⟩ := Outcome.bind_eq_ok h
            obtain ⟨hne, t', ht', f₀, hf₀⟩ := ih.2 _ _ hu
            refine ⟨f₀ + 1, ?_⟩
            rw [IRCpTag.parse_tag_method_ref, parse_tag_idx_nil mutf8 f₀ hne ht', hf₀,
              Outcome.bind_ok]
            exact h₂
        | InterfaceMethodRef class_index name_and_ty_index =>
            rw [IRCpTag.parse_tag_interface_method_ref] at h
            obtain ⟨u, hu, h₂⟩ := Outcome.bind_eq_ok h
            obtain ⟨hne, t', ht', f₀, hf₀⟩ := ih.2 _ _ hu
            refine ⟨f₀ + 1, ?_⟩
            rw [IRCpTag.parse_tag_interface_method_ref,
              parse_tag_idx_nil mutf8 f₀ hne ht', hf₀, Outcome.bind_ok]
            exact h₂
        | NameAndType name_index descriptor_index =>
            rw [IRCpTag.parse_tag_name_and_type] at h
            obtain ⟨u₁, hu₁, h₂⟩ := Outcome.bind_eq_ok h
            obtain ⟨u₂, hu₂, h₃⟩ := Outcome.bind_eq_ok h₂
            obtain ⟨hne₁, t₁, ht₁, f₁, hf₁⟩ := ih.2 _ _ hu₁
            obtain ⟨hne₂, t₂, ht₂, f₂, hf₂⟩ := ih.2 _ _ hu₂
            refine ⟨max f₁ f₂ + 1, ?_⟩
            rw [IRCpTag.parse_tag_name_and_type,
              parse_tag_idx_nil mutf8 (max f₁ f₂) hne₁ ht₁,
              IRCpTag.parse_tag_mono mutf8 raw (Nat.le_max_left f₁ f₂) hf₁,
              Outcome.bind_ok,
              parse_tag_idx_nil mutf8 (max f₁ f₂) hne₂ ht₂,
              IRCpTag.parse_tag_mono mutf8 raw (Nat.le_max_right f₁ f₂) hf₂,
              Outcome.bind_ok]
            exact h₃
        | MethodHandle reference_kind_idx reference_index =>
            rw [IRCpTag.parse_tag_method_handle] at h
            obtain ⟨k, hk, h₂⟩ := Outcome.bind_eq_ok h
            obtain ⟨u, hu, h₃⟩ := Outcome.bind_eq_ok h₂
            obtain ⟨hne, t', ht', f₀, hf₀⟩ := ih.2 _ _ hu
            refine ⟨f₀ + 1, ?_⟩
            rw [IRCpTag.parse_tag_method_handle, hk, Outcome.bind_ok,
              parse_tag_idx_nil mutf8 f₀ hne ht', hf₀, Outcome.bind_ok]
            exact h₃
        | MethodType descriptor_index =>
            rw [IRCpTag.parse_tag_method_type] at h
            obtain ⟨u, hu, h₂⟩ := Outcome.bind_eq_ok h
            obtain ⟨hne, t', ht', f₀, hf₀⟩ := ih.2 _ _ hu
            refine ⟨f₀ + 1, ?_⟩
            rw [IRCpTag.parse_tag_method_type, parse_tag_idx_nil mutf8 f₀ hne ht', hf₀,
              Outcome.bind_ok]
            exact h₂
        | InvokeDynamic bootstrap_method_attr_index name_and_ty_index =>
            rw [IRCpTag.parse_tag_invoke_dynamic] at h
            obtain ⟨u, hu, h₂⟩ := Outcome.bind_eq_ok h
            obtain ⟨hne, t', ht', f₀, hf₀⟩ := ih.2 _ _ hu
            refine ⟨f₀ + 1, ?_⟩
            rw [IRCpTag.parse_tag_invoke_dynamic, parse_tag_idx_nil mutf8 f₀ hne ht', hf₀,
              Outcome.bind_ok]
            exact h₂
      refine ⟨hP, ?_⟩
      intro idx v h
      unfold IRCpTag.parse_tag_idx at h
      by_cases h0 : idx = 0
      · rw [if_pos h0] at h; simp at h
      · rw [if_neg h0] at h
        refine ⟨h0, ?_⟩
        cases hm : formed[idx - 1]? with
        | some w =>
            rw [hm] at h
            have hj : idx - 1 < formed.length := by
              by_contra hlt
              rw [List.getElem?_eq_none (Nat.le_of_not_lt hlt)] at hm
              simp at hm
            have hjr : idx - 1 < raw.length := Nat.lt_of_lt_of_le hj hco.length_le
            obtain ⟨t, ht⟩ : ∃ t, raw[idx - 1]? = some t :=
              ⟨raw[idx - 1], List.getElem?_eq_getElem hjr⟩
            refine ⟨t, ht, ?_⟩
            have hv : w = v := by simpa using h
            exact hv ▸ hco.mem _ _ _ ht hm
        | none =>
            rw [hm] at h
            cases hr : raw[idx - 1]? with
            | some t =>
                rw [hr] at h
                exact ⟨t, rfl, hP _ _ h⟩
            | none => rw [hr] at h; simp at h

/-! ### Well-formed raw pools -/

/-- The raw kinds accepted where the resolver builds a `CPUtf8Ref`
(`CPUtf8Ref::new` accepts resolved `Utf8` and `Class` tags). -/
def IOCpTag.isUtf8Kind : IOCpTag → Bool
  | .Utf8 .. => true
  | .Class _ => true
  | _ => false

/-- The raw kind accepted where the resolver expects a `NameAndType`. -/
def IOCpTag.isNameAndTypeKind : IOCpTag → Bool
  | .NameAndType .. => true
  | _ => false

/-- One symbolic-reference site is well-formed: the 1-based index is
non-zero and in range, and its target satisfies `kindOk` and the recursive
check `rec`. -/
def wfSite (raw : List IOCpTag) (rec : IOCpTag → Bool) (idx : Nat)
    (kindOk : IOCpTag → Bool) : Bool :=
  decide (idx ≠ 0) &&
    (match raw[idx - 1]? with
     | some u => kindOk u && rec u
     | none => false)

/-- `wfTag mutf8 raw f t`: every symbolic index reachable from `t` is
non-zero and in range, every target has the raw kind expected at its use
site, Utf8 bytes decode under `mutf8`, method-handle kind bytes are in
`1..=9`, and the whole reference tree below `t` has depth below `f`.  For
an acyclic pool of `n` entries every reference tree has depth at most `n`,
so `wfTag` at fuel `n` captures exactly "acyclic, in-range, expected
kinds, decodable text, valid handle kinds". -/
def wfTag (mutf8 : Mutf8Decoder) (raw : List IOCpTag) : Nat → IOCpTag → Bool
  | 0, _ => false
  | _ + 1, .Utf8 _ bytes => (mutf8 bytes).isSome
  | _ + 1, .Integer _ => true
  | _ + 1, .Float _ => true
  | _ + 1, .Long _ => true
  | _ + 1, .Double _ => true
  | f + 1, .Class i => wfSite raw (fun u => wfTag mutf8 raw f u) i IOCpTag.isUtf8Kind
  | f + 1, .String i => wfSite raw (fun u => wfTag mutf8 raw f u) i IOCpTag.isUtf8Kind
  | f + 1, .MethodType i => wfSite raw (fun u => wfTag mutf8 raw f u) i IOCpTag.isUtf8Kind
  | f + 1, .NameAndType n d =>
      wfSite raw (fun u => wfTag mutf8 raw f u) n IOCpTag.isUtf8Kind &&
      wfSite raw (fun u => wfTag mutf8 raw f u) d IOCpTag.isUtf8Kind
  | f + 1, .FieldRef _ nat =>
      wfSite raw (fun u => wfTag mutf8 raw f u) nat IOCpTag.isNameAndTypeKind
  | f + 1, .MethodRef _ nat =>
      wfSite raw (fun u => wfTag mutf8 raw f u) nat IOCpTag.isNameAndTypeKind
  | f + 1, .InterfaceMethodRef _ nat =>
      wfSite raw (fun u => wfTag mutf8 raw f u) nat IOCpTag.isNameAndTypeKind
  | f + 1, .InvokeDynamic _ nat =>
      wfSite raw (fun u => wfTag mutf8 raw f u) nat IOCpTag.isNameAndTypeKind
  | f + 1, .MethodHandle k r =>
      decide (1 ≤ k) && decide (k ≤ 9) &&
        wfSite raw (fun u => wfTag mutf8 raw f u) r (fun _ => true)

/-- A raw pool is well-formed: acyclic, with all symbolic indices in range
and of the expected kinds, decodable text and valid method-handle kinds. -/
def wfPool (mutf8 : Mutf8Decoder) (raw : List IOCpTag) : Bool :=
  raw.all (wfTag mutf8 raw raw.length)

theorem wfSite_spec {raw : List IOCpTag} {rec : IOCpTag → Bool} {idx : Nat}
    {kindOk : IOCpTag → Bool} (h : wfSite raw rec idx kindOk = true) :
    idx ≠ 0 ∧ ∃ u, raw[idx - 1]? = some u ∧ kindOk u = true ∧ rec u = true := by
  unfold wfSite at h
  rw [Bool.and_eq_true] at h
  obtain ⟨h₁, h₂⟩ := h
  refine ⟨by simpa using h₁, ?_⟩
  cases hm : raw[idx - 1]? with
  | some u =>
      rw [hm, Bool.and_eq_true] at h₂
      exact ⟨u, rfl, h₂.1, h₂.2⟩
  | none => rw [hm] at h₂; simp at h₂

theorem wfSite_intro {raw : List IOCpTag} {rec : IOCpTag → Bool} {idx : Nat}
    {kindOk : IOCpTag → Bool} {u : IOCpTag} (h0 : idx ≠ 0)
    (hu : raw[idx - 1]? = some u) (hk : kindOk u = true) (hr : rec u = true) :
    wfSite raw rec idx kindOk = true := by
  unfold wfSite
  rw [hu]
  simp [h0, hk, hr]

theorem wfTag_zero (mutf8 : Mutf8Decoder) (raw : List IOCpTag) (t : IOCpTag) :
    wfTag mutf8 raw 0 t = false := rfl

theorem wfSite_mono {raw : List IOCpTag} {rec rec' : IOCpTag → Bool} {idx : Nat}
    {kindOk : IOCpTag → Bool}
    (hrec : ∀ u, rec u = true → rec' u = true)
    (h : wfSite raw rec idx kindOk = true) :
    wfSite raw rec' idx kindOk = true := by
  obtain ⟨h0, u, hu, hk, hw⟩ := wfSite_spec h
  exact wfSite_intro h0 hu hk (hrec u hw)

/-- Raising the fuel preserves tag well-formedness. -/
theorem wfTag_mono_succ (mutf8 : Mutf8Decoder) (raw : List IOCpTag) :
    ∀ f t, wfTag mutf8 raw f t = true → wfTag mutf8 raw (f + 1) t = true := by
  intro f
  induction f with
  | zero => intro t h; rw [wfTag_zero] at h; simp at h
  | succ f ih =>
      intro t h
      cases t with
      | Utf8 length bytes => exact h
      | Integer bytes => rfl
      | Float bytes => rfl
      | Long bytes => rfl
      | Double bytes => rfl
      | Class i => exact wfSite_mono ih h
      | String i => exact wfSite_mono ih h
      | MethodType i => exact wfSite_mono ih h
      | NameAndType n d =>
          rw [show wfTag mutf8 raw (f + 1 + 1) (.NameAndType n d) =
              (wfSite raw (fun u => wfTag mutf8 raw (f + 1) u) n IOCpTag.isUtf8Kind &&
               wfSite raw (fun u => wfTag mutf8 raw (f + 1) u) d IOCpTag.isUtf8Kind) from rfl,
             Bool.and_eq_true]
          rw [show wfTag mutf8 raw (f + 1) (.NameAndType n d) =
              (wfSite raw (fun u => wfTag mutf8 raw f u) n IOCpTag.isUtf8Kind &&
               wfSite raw (fun u => wfTag mutf8 raw f u) d IOCpTag.isUtf8Kind) from rfl,
             Bool.and_eq_true] at h
          exact ⟨wfSite_mono ih h.1, wfSite_mono ih h.2⟩
      | FieldRef c nat => exact wfSite_mono ih h
      | MethodRef c nat => exact wfSite_mono ih h
      | InterfaceMethodRef c nat => exact wfSite_mono ih h
      | InvokeDynamic b nat => exact wfSite_mono ih h
      | MethodHandle k r =>
          rw [show wfTag mutf8 raw (f + 1 + 1) (.MethodHandle k r) =
              (decide (1 ≤ k) && decide (k ≤ 9) &&
               wfSite raw (fun u => wfTag mutf8 raw (f + 1) u) r (fun _ => true)) from rfl,
             Bool.and_eq_true]
          rw [show wfTag mutf8 raw (f + 1) (.MethodHandle k r) =
              (decide (1 ≤ k) && decide (k ≤ 9) &&
               wfSite raw (fun u => wfTag mutf8 raw f u) r (fun _ => true)) from rfl,
             Bool.and_eq_true] at h
          exact ⟨h.1, wfSite_mono ih h.2⟩

theorem wfTag_mono (mutf8 : Mutf8Decoder) (raw : List IOCpTag)
    {f f' : Nat} (hle : f ≤ f') {t : IOCpTag}
    (h : wfTag mutf8 raw f t = true) : wfTag mutf8 raw f' t = true := by
  induction hle with
  | refl => exact h
  | step hle ih => exact wfTag_mono_succ mutf8 raw _ _ ih

theorem wfPool_spec {mutf8 : Mutf8Decoder} {raw : List IOCpTag}
    (h : wfPool mutf8 raw = true) :
    ∀ (i : Nat) (t : IOCpTag), raw[i]? = some t →
      wfTag mutf8 raw raw.length t = true := by
  intro i t ht
  have hmem : t ∈ raw := List.getElem?_mem ht
  exact List.all_eq_true.mp h t hmem

/-! ### Success of resolution on well-formed pools -/

theorem CPUtf8Ref.new_ok (i : Nat) {v : IRCpTag}
    (h : v.kindCode = 1 ∨ v.kindCode = 7) :
    ∃ r, CPUtf8Ref.new i v = .ok r := by
  cases v <;> first
    | exact ⟨_, rfl⟩
    | (simp [IRCpTag.kindCode] at h)

theorem IRCpTag.eq_name_and_type_of_kind {v : IRCpTag} (h : v.kindCode = 12) :
    ∃ n d, v = .NameAndType n d := by
  cases v <;> first
    | exact ⟨_, _, rfl⟩
    | (simp [IRCpTag.kindCode] at h)

theorem IRMethodRefKind.fromByte_ok {k : Nat} (h1 : 1 ≤ k) (h9 : k ≤ 9) :
    ∃ x, IRMethodRefKind.fromByte k = .ok x := by
  interval_cases k <;> exact ⟨_, rfl⟩

theorem IOCpTag.isUtf8Kind_code {u : IOCpTag} (h : u.isUtf8Kind = true) :
    u.kindCode = 1 ∨ u.kindCode = 7 := by
  cases u <;> simp_all [IOCpTag.isUtf8Kind, IOCpTag.kindCode]

theorem IOCpTag.isNameAndTypeKind_code {u : IOCpTag}
    (h : u.isNameAndTypeKind = true) : u.kindCode = 12 := by
  cases u <;> simp_all [IOCpTag.isNameAndTypeKind, IOCpTag.kindCode]

/-- On a well-formed tag the memoized resolver succeeds against any
coherent memo (no typed error and, crucially, no abort), together with the
corresponding fact for reference sites. -/
theorem parse_success (mutf8 : Mutf8Decoder) (raw : List IOCpTag)
    (formed : List IRCpTag) (hco : Coherent mutf8 raw formed) :
    ∀ f : Nat,
      (∀ t, wfTag mutf8 raw f t = true →
        ∃ v, IRCpTag.parse_tag mutf8 f t raw formed = .ok v) ∧
      (∀ idx u, idx ≠ 0 → raw[idx - 1]? = some u →
        wfTag mutf8 raw f u = true →
        ∃ w, IRCpTag.parse_tag_idx mutf8 f idx raw formed = .ok w ∧
          w.kindCode = u.kindCode) := by
  intro f
  induction f with
  | zero =>
      constructor
      · intro t h; rw [wfTag_zero] at h; simp at h
      · intro idx u hne hu hw; rw [wfTag_zero] at hw; simp at hw
  | succ f ih =>
      have hS : ∀ t, wfTag mutf8 raw (f + 1) t = true →
          ∃ v, IRCpTag.parse_tag mutf8 (f + 1) t raw formed = .ok v := by
        intro t h
        cases t with
        | Utf8 length bytes =>
            rw [IRCpTag.parse_tag_utf8]
            have h' : (mutf8 bytes).isSome = true := h
            cases hm : mutf8 bytes with
            | some s => exact ⟨.Utf8 s, rfl⟩
            | none => rw [hm] at h'; simp at h'
        | Integer bytes => exact ⟨_, rfl⟩
        | Float bytes => exact ⟨_, rfl⟩
        | Long bytes => exact ⟨_, rfl⟩
        | Double bytes => exact ⟨_, rfl⟩
        | Class i =>
            obtain ⟨h0, u, hu, hk, hw⟩ := wfSite_spec h
            obtain ⟨w, hwok, hkind⟩ := ih.2 i u h0 hu hw
            obtain ⟨r, hr⟩ := CPUtf8Ref.new_ok i
              (hkind ▸ IOCpTag.isUtf8Kind_code hk)
            exact ⟨.Class r, by
              rw [IRCpTag.parse_tag_class, hwok, Outcome.bind_ok, hr, Outcome.bind_ok]⟩
        | String i =>
            obtain ⟨h0, u, hu, hk, hw⟩ := wfSite_spec h
            obtain ⟨w, hwok, hkind⟩ := ih.2 i u h0 hu hw
            obtain ⟨r, hr⟩ := CPUtf8Ref.new_ok i
              (hkind ▸ IOCpTag.isUtf8Kind_code hk)
            exact ⟨.String r, by
              rw [IRCpTag.parse_tag_string, hwok, Outcome.bind_ok, hr, Outcome.bind_ok]⟩
        | MethodType i =>
            obtain ⟨h0, u, hu, hk, hw⟩ := wfSite_spec h
            obtain ⟨w, hwok, hkind⟩ := ih.2 i u h0 hu hw
            obtain ⟨r, hr⟩ := CPUtf8Ref.new_ok i
              (hkind ▸ IOCpTag.isUtf8Kind_code hk)
            exact ⟨.MethodType r, by
              rw [IRCpTag.parse_tag_method_type, hwok, Outcome.bind_ok, hr, Outcome.bind_ok]⟩
        | NameAndType n d =>
            rw [show wfTag mutf8 raw (f + 1) (.NameAndType n d) =
                (wfSite raw (fun u => wfTag mutf8 raw f u) n IOCpTag.isUtf8Kind &&
                 wfSite raw (fun u => wfTag mutf8 raw f u) d IOCpTag.isUtf8Kind) from rfl,
               Bool.and_eq_true] at h
            obtain ⟨h0₁, u₁, hu₁, hk₁, hw₁⟩ := wfSite_spec h.1
            obtain ⟨h0₂, u₂, hu₂, hk₂, hw₂⟩ := wfSite_spec h.2
            obtain ⟨w₁, hwok₁, hkind₁⟩ := ih.2 n u₁ h0₁ hu₁ hw₁
            obtain ⟨w₂, hwok₂, hkind₂⟩ := ih.2 d u₂ h0₂ hu₂ hw₂
            obtain ⟨r₁, hr₁⟩ := CPUtf8Ref.new_ok n
              (hkind₁ ▸ IOCpTag.isUtf8Kind_code hk₁)
            obtain ⟨r₂, hr₂⟩ := CPUtf8Ref.new_ok d
              (hkind₂ ▸ IOCpTag.isUtf8Kind_code hk₂)
            exact ⟨.NameAndType r₁ r₂, by
              rw [IRCpTag.parse_tag_name_and_type, hwok₁, Outcome.bind_ok, hwok₂,
                Outcome.bind_ok, hr₁, Outcome.bind_ok, hr₂, Outcome.bind_ok]⟩
        | FieldRef c nat =>
            obtain ⟨h0, u, hu, hk, hw⟩ := wfSite_spec h
            obtain ⟨w, hwok, hkind⟩ := ih.2 nat u h0 hu hw
            obtain ⟨nm, dsc, hnat⟩ := IRCpTag.eq_name_and_type_of_kind
              (hkind.trans (IOCpTag.isNameAndTypeKind_code hk))
            subst hnat
            exact ⟨_, by rw [IRCpTag.parse_tag_field_ref, hwok, Outcome.bind_ok]⟩
        | MethodRef c nat =>
            obtain ⟨h0, u, hu, hk, hw⟩ := wfSite_spec h
            obtain ⟨w, hwok, hkind⟩ := ih.2 nat u h0 hu hw
            obtain ⟨nm, dsc, hnat⟩ := IRCpTag.eq_name_and_type_of_kind
              (hkind.trans (IOCpTag.isNameAndTypeKind_code hk))
            subst hnat
            exact ⟨_, by rw [IRCpTag.parse_tag_method_ref, hwok, Outcome.bind_ok]⟩
        | InterfaceMethodRef c nat =>
            obtain ⟨h0, u, hu, hk, hw⟩ := wfSite_spec h
            obtain ⟨w, hwok, hkind⟩ := ih.2 nat u h0 hu hw
            obtain ⟨nm, dsc, hnat⟩ := IRCpTag.eq_name_and_type_of_kind
              (hkind.trans (IOCpTag.isNameAndTypeKind_code hk))
            subst hnat
            exact ⟨_, by
              rw [IRCpTag.parse_tag_interface_method_ref, hwok, Outcome.bind_ok]⟩
        | InvokeDynamic b nat =>
            obtain ⟨h0, u, hu, hk, hw⟩ := wfSite_spec h
            obtain ⟨w, hwok, hkind⟩ := ih.2 nat u h0 hu hw
            obtain ⟨nm, dsc, hnat⟩ := IRCpTag.eq_name_and_type_of_kind
              (hkind.trans (IOCpTag.isNameAndTypeKind_code hk))
            subst hnat
            exact ⟨_, by rw [IRCpTag.parse_tag_invoke_dynamic, hwok, Outcome.bind_ok]⟩
        | MethodHandle k r =>
            rw [show wfTag mutf8 raw (f + 1) (.MethodHandle k r) =
                (decide (1 ≤ k) && decide (k ≤ 9) &&
                 wfSite raw (fun u => wfTag mutf8 raw f u) r (fun _ => true)) from rfl,
               Bool.and_eq_true, Bool.and_eq_true] at h
            obtain ⟨⟨hk1, hk9⟩, hsite⟩ := h
            obtain ⟨h0, u, hu, _, hw⟩ := wfSite_spec hsite
            obtain ⟨w, hwok, _⟩ := ih.2 r u h0 hu hw
            obtain ⟨x, hx⟩ := IRMethodRefKind.fromByte_ok
              (by simpa using hk1) (by simpa using hk9)
            exact ⟨_, by
              rw [IRCpTag.parse_tag_method_handle, hx, Outcome.bind_ok, hwok,
                Outcome.bind_ok]⟩
      refine ⟨hS, ?_⟩
      intro idx u hne hu hw
      unfold IRCpTag.parse_tag_idx
      rw [if_neg hne]
      cases hm : formed[idx - 1]? with
      | some w =>
          have hres : Resolves mutf8 raw u w := hco.mem _ _ _ hu hm
          exact ⟨w, rfl, hres.kind⟩
      | none =>
          rw [hu]
          obtain ⟨v, hv⟩ := hS u hw
          exact ⟨v, hv, IRCpTag.parse_tag_kind hv⟩

/-- Running the forward pass over the tail `raw.drop k` from a coherent
accumulator of length `k` succeeds on a well-formed pool and yields a
coherent, length-aligned result. -/
theorem fromIoAux_sound (mutf8 : Mutf8Decoder) (raw : List IOCpTag)
    (hwf : wfPool mutf8 raw = true) :
    ∀ (d k : Nat) (acc : List IRCpTag), raw.length - k = d → acc.length = k →
      Coherent mutf8 raw acc →
      ∃ res, IRCpTag.fromIoAux mutf8 raw (raw.drop k) acc = .ok res ∧
        res.length = raw.length ∧ Coherent mutf8 raw res := by
  intro d
  induction d with
  | zero =>
      intro k acc hd hk hco
      have hge : raw.length ≤ k := Nat.le_of_sub_eq_zero hd
      rw [List.drop_eq_nil_of_le hge]
      exact ⟨acc, rfl, le_antisymm hco.length_le (hk ▸ hge), hco⟩
  | succ d ih =>
      intro k acc hd hk hco
      have hklt : k < raw.length := by omega
      have hdrop : raw.drop k = raw[k] :: raw.drop (k + 1) :=
        List.drop_eq_getElem_cons hklt
      rw [hdrop]
      have hgk : raw[k]? = some raw[k] := List.getElem?_eq_getElem hklt
      have hwft : wfTag mutf8 raw (raw.length + 1) raw[k] = true :=
        wfTag_mono mutf8 raw (Nat.le_succ _) (wfPool_spec hwf k _ hgk)
      obtain ⟨v, hv⟩ := (parse_success mutf8 raw acc hco (raw.length + 1)).1 _ hwft
      have hres : Resolves mutf8 raw raw[k] v :=
        (parse_sound mutf8 raw acc hco (raw.length + 1)).1 _ _ hv
      have hco' : Coherent mutf8 raw (acc ++ [v]) := by
        constructor
        · simp [hk]; omega
        · intro j t w ht hw
          rcases Nat.lt_trichotomy j k with hj | hj | hj
          · rw [List.getElem?_append_left (hk ▸ hj)] at hw
            exact hco.mem _ _ _ ht hw
          · subst hj
            rw [List.getElem?_append_right (by omega), hk] at hw
            simp at hw
            subst hw
            rw [hgk] at ht
            cases ht
            exact hres
          · rw [List.getElem?_append_right (by omega), hk] at hw
            rw [List.getElem?_eq_none (by simp; omega)] at hw
            simp at hw
      show ∃ res,
        (match IRCpTag.parse_tag mutf8 (raw.length + 1) raw[k] raw acc with
          | .ok v => IRCpTag.fromIoAux mutf8 raw (raw.drop (k + 1)) (acc ++ [v])
          | .error e => .error e
          | .panicked m => .panicked m) = .ok res ∧
        res.length = raw.length ∧ Coherent mutf8 raw res
      rw [hv]
      exact ih (k + 1) (acc ++ [v]) (by omega) (by simp [hk]) hco'

theorem getElem?_some_lt {α : Type} {l : List α} {i : Nat} {a : α}
    (h : l[i]? = some a) : i < l.length := by
  by_contra hlt
  rw [List.getElem?_eq_none (Nat.le_of_not_lt hlt)] at h
  simp at h

/-- The hypothesis of the spec sentence "for all acyclic raw pool tables
whose symbolic indices all resolve to in-range entries of the expected
kinds", written from the spec's words (for comparison with `wfPool`): it
constrains only the symbolic indices — nothing about a Utf8 entry's byte
content, and nothing about a method handle's kind byte, since neither is a
symbolic index. -/
def wfTagIndices (raw : List IOCpTag) : Nat → IOCpTag → Bool
  | 0, _ => false
  | _ + 1, .Utf8 .. => true
  | _ + 1, .Integer _ => true
  | _ + 1, .Float _ => true
  | _ + 1, .Long _ => true
  | _ + 1, .Double _ => true
  | f + 1, .Class i => wfSite raw (fun u => wfTagIndices raw f u) i IOCpTag.isUtf8Kind
  | f + 1, .String i => wfSite raw (fun u => wfTagIndices raw f u) i IOCpTag.isUtf8Kind
  | f + 1, .MethodType i => wfSite raw (fun u => wfTagIndices raw f u) i IOCpTag.isUtf8Kind
  | f + 1, .NameAndType n d =>
      wfSite raw (fun u => wfTagIndices raw f u) n IOCpTag.isUtf8Kind &&
      wfSite raw (fun u => wfTagIndices raw f u) d IOCpTag.isUtf8Kind
  | f + 1, .FieldRef _ nat =>
      wfSite raw (fun u => wfTagIndices raw f u) nat IOCpTag.isNameAndTypeKind
  | f + 1, .MethodRef _ nat =>
      wfSite raw (fun u => wfTagIndices raw f u) nat IOCpTag.isNameAndTypeKind
  | f + 1, .InterfaceMethodRef _ nat =>
      wfSite raw (fun u => wfTagIndices raw f u) nat IOCpTag.isNameAndTypeKind
  | f + 1, .InvokeDynamic _ nat =>
      wfSite raw (fun u => wfTagIndices raw f u) nat IOCpTag.isNameAndTypeKind
  | f + 1, .MethodHandle _ r =>
      wfSite raw (fun u => wfTagIndices raw f u) r (fun _ => true)

/-- The claim's hypothesis for a whole pool, from the spec's words. -/
def wfPoolIndices (raw : List IOCpTag) : Bool :=
  raw.all (wfTagIndices raw raw.length)

/-- C3, counterexample.  Two acyclic pools whose symbolic indices all
resolve to in-range entries of the expected kinds (witnessed by
`wfPoolIndices`), on which `from_io` does not succeed: a Utf8 entry whose
bytes the text decoder rejects propagates a typed `Mutf8` error, and a
method handle with the invalid kind byte `10` aborts through
`IRMethodRefKind::from`'s `panic!("fuck you")` arm. -/
theorem c3_pool_resolution_counterexample :
    (wfPoolIndices [.Utf8 1 [255]] = true ∧
      IRCpTag.fromIoPool mutf8Ascii [.Utf8 1 [255]] = .error .Mutf8) ∧
    (wfPoolIndices [.Utf8 1 [120], .MethodHandle 10 1] = true ∧
      IRCpTag.fromIoPool mutf8Ascii [.Utf8 1 [120], .MethodHandle 10 1] =
        .panicked "fuck you") :=
  ⟨⟨rfl, rfl⟩, ⟨rfl, rfl⟩⟩

/-- C3 (amended).  For every raw pool that is acyclic with all symbolic
indices in range and of the expected kinds, **and** whose Utf8 entries'
bytes are accepted by the text decoder, **and** whose method-handle kind
bytes are valid (all of which `wfPool` packages), resolution succeeds, the
output is index-aligned 1:1 with the input, and the resolved entry at
position `i` is the direct (memo-free) resolution of the raw tag at
position `i` — its typed counterpart, with matching constructor. -/
theorem c3_resolve_index_aligned (mutf8 : Mutf8Decoder) (raw : List IOCpTag)
    (hwf : wfPool mutf8 raw = true) :
    ∃ res, IRCpTag.fromIoPool mutf8 raw = .ok res ∧ res.length = raw.length ∧
      ∀ (i : Nat) (t : IOCpTag) (v : IRCpTag), raw[i]? = some t → res[i]? = some v →
        IRCpTag.parse_tag mutf8 (raw.length + 1) t raw [] = .ok v ∧
        v.kindCode = t.kindCode := by
  obtain ⟨res, hres, hlen, hco⟩ :=
    fromIoAux_sound mutf8 raw hwf raw.length 0 [] (by omega) rfl (coherent_nil mutf8 raw)
  rw [List.drop_zero] at hres
  refine ⟨res, hres, hlen, ?_⟩
  intro i t v ht hv
  have hresolves : Resolves mutf8 raw t v := hco.mem _ _ _ ht hv
  have hwft : wfTag mutf8 raw (raw.length + 1) t = true :=
    wfTag_mono mutf8 raw (Nat.le_succ _) (wfPool_spec hwf i t ht)
  obtain ⟨v', hv'⟩ :=
    (parse_success mutf8 raw [] (coherent_nil mutf8 raw) (raw.length + 1)).1 t hwft
  have hres' : Resolves mutf8 raw t v' :=
    (parse_sound mutf8 raw [] (coherent_nil mutf8 raw) (raw.length + 1)).1 _ _ hv'
  have hvv : v' = v := hres'.det hresolves
  exact ⟨hvv ▸ hv', hresolves.kind⟩

/-- The concrete pool of the spec's §8 example (`java/lang/Math.add`),
used to witness resolution theorems. -/
def mathAddPool : List IOCpTag :=
  [.Utf8 3 [97, 100, 100],
   .Utf8 5 [40, 73, 73, 41, 73],
   .NameAndType 1 2,
   .Utf8 14 [106, 97, 118, 97, 47, 108, 97, 110, 103, 47, 77, 97, 116, 104],
   .Class 4,
   .MethodRef 5 3]

/-- C3, witness: the §8 example pool is well-formed and the theorem
applies to it. -/
theorem c3_resolve_index_aligned_witness :
    ∃ res, IRCpTag.fromIoPool mutf8Ascii mathAddPool = .ok res ∧
      res.length = mathAddPool.length ∧
      ∀ (i : Nat) (t : IOCpTag) (v : IRCpTag),
        mathAddPool[i]? = some t → res[i]? = some v →
        IRCpTag.parse_tag mutf8Ascii (mathAddPool.length + 1) t mathAddPool [] = .ok v ∧
        v.kindCode = t.kindCode :=
  c3_resolve_index_aligned mutf8Ascii mathAddPool rfl

/-- C4.  Retrieving a resolved entry as a narrower kind than it has does
not produce a typed error: on the pool `[Utf8 "x", FieldRef{class:1,
name_and_type:1}]` — where the field reference's name-and-type index
resolves to a `Utf8`, not a `NameAndType` — resolution aborts the process
through `panic!("expected NameAndType")` (class_pool.rs:153).  No
`UnexpectedPoolKind` typed error exists anywhere in the code. -/
theorem c4_narrow_kind_aborts :
    IRCpTag.fromIoPool mutf8Ascii [.Utf8 1 [120], .FieldRef 1 1] =
      .panicked "expected NameAndType" := rfl

/-- C6.  On a well-formed pool, the value obtained for position `j` on its
own turn of the forward pass (`res[j]`) and the value obtained for `j`
through another entry's reference — i.e. `parse_tag_idx` at 1-based index
`j + 1` against the memo prefix available at any stage `k` of the pass —
are equal. -/
theorem c6_direct_indirect_agree (mutf8 : Mutf8Decoder) (raw : List IOCpTag)
    (res : List IRCpTag) (hwf : wfPool mutf8 raw = true)
    (hres : IRCpTag.fromIoPool mutf8 raw = .ok res)
    (j : Nat) (v : IRCpTag) (hj : res[j]? = some v) (k : Nat) (hk : k ≤ res.length) :
    IRCpTag.parse_tag_idx mutf8 (raw.length + 1) (j + 1) raw (res.take k) = .ok v := by
  obtain ⟨res', hres', hlen', hco'⟩ :=
    fromIoAux_sound mutf8 raw hwf raw.length 0 [] (by omega) rfl (coherent_nil mutf8 raw)
  rw [List.drop_zero] at hres'
  unfold IRCpTag.fromIoPool at hres
  rw [hres'] at hres
  have hrr : res' = res := by simpa using hres
  subst hrr
  have hcot : Coherent mutf8 raw (res'.take k) := by
    constructor
    · rw [List.length_take]
      exact le_trans (min_le_right _ _) (le_of_eq hlen')
    · intro j' t w ht hw
      have hj' : j' < k :=
        lt_of_lt_of_le (getElem?_some_lt hw) (by rw [List.length_take]; omega)
      rw [List.getElem?_take, if_pos hj'] at hw
      exact hco'.mem _ _ _ ht hw
  unfold IRCpTag.parse_tag_idx
  rw [if_neg (Nat.succ_ne_zero j)]
  simp only [Nat.add_sub_cancel]
  have hjlen : j < res'.length := getElem?_some_lt hj
  cases hm : (res'.take k)[j]? with
  | some w =>
      have hjk : j < k :=
        lt_of_lt_of_le (getElem?_some_lt hm) (by rw [List.length_take]; omega)
      rw [List.getElem?_take, if_pos hjk, hj] at hm
      cases hm
      rfl
  | none =>
      have hjraw : j < raw.length := hlen' ▸ hjlen
      have ht : raw[j]? = some raw[j] := List.getElem?_eq_getElem hjraw
      rw [ht]
      show IRCpTag.parse_tag mutf8 (raw.length + 1) raw[j] raw (res'.take k) = .ok v
      have hwft : wfTag mutf8 raw (raw.length + 1) raw[j] = true :=
        wfTag_mono mutf8 raw (Nat.le_succ _) (wfPool_spec hwf j _ ht)
      obtain ⟨v', hv'⟩ :=
        (parse_success mutf8 raw (res'.take k) hcot (raw.length + 1)).1 _ hwft
      have h₁ : Resolves mutf8 raw raw[j] v' :=
        (parse_sound mutf8 raw (res'.take k) hcot (raw.length + 1)).1 _ _ hv'
      have h₂ : Resolves mutf8 raw raw[j] v := hco'.mem _ _ _ ht hj
      rw [hv', h₁.det h₂]

/-! ## Typed pool handles used by the instruction and attribute decoders

`code.rs` and `attribute.rs` import `CPClassRef`, `CPFieldRef`,
`CPMethodRef`, `CPInterfaceMethodRef`, `CPInvokeDynamicRef`,
`CPConstValueRef`, `CPModuleInfoRef`, `CPPackageInfoRef`, `CPTagRef` and
several `from_cp`/`new` constructors from `crate::class_pool`, but the
`class_pool.rs` in src does not contain them.  They are modelled from the
spec (§3: a resolved reference is "a typed in-memory handle obtained by
following and kind-validating a symbolic index"; §4.3: "a pool-reference
operand whose resolved kind is checked against what the opcode requires"),
following the 1-based `cp.get(idx - 1).expect(..)` access pattern that the
attribute decoder in src uses everywhere it accesses the pool inline. -/

/-- The `cp.get(idx as usize - 1).expect(msg)` access pattern of
attribute.rs: 1-based index, `-1` translation (underflow on `0` aborts),
abort with `msg` when out of range. -/
def cpGetOneBased (cp : List IRCpTag) (idx : Nat) (msg : String) : Outcome IRCpTag :=
  if idx = 0 then .panicked "attempt to subtract with overflow"
  else
    match cp[idx - 1]? with
    | some t => .ok t
    | none => .panicked msg

/-- Modelled from the spec: `CPClassRef`, a resolved class handle (owned
name data plus the 1-based index it came from, like `CPUtf8Ref`). -/
structure CPClassRef : Type where
  data : String
  index : Nat
deriving DecidableEq, Repr

/-- Modelled from the spec: `CPClassRef::new` (used by attribute.rs with a
resolved class tag), kind-validating like `CPUtf8Ref::new`. -/
def CPClassRef.new (index : Nat) (tag : IRCpTag) : Outcome CPClassRef :=
  match tag with
  | .Class r => .ok ⟨r.data, index⟩
  | _ => .panicked "expected class"

/-- Modelled from the spec: `CPClassRef::from_cp`. -/
def CPClassRef.from_cp (cp : List IRCpTag) (idx : Nat) : Outcome CPClassRef :=
  Outcome.bind (cpGetOneBased cp idx "expected class") fun tag =>
  CPClassRef.new idx tag

/-- Modelled from the spec: `CPFieldRef`, a resolved field-reference
handle. -/
structure CPFieldRef : Type where
  index : Nat
  class_index : Nat
  name_and_ty : CPNameAndTypeRef
deriving DecidableEq, Repr

/-- Modelled from the spec: `CPFieldRef::from_cp`, kind-checked. -/
def CPFieldRef.from_cp (cp : List IRCpTag) (idx : Nat) : Outcome CPFieldRef :=
  Outcome.bind (cpGetOneBased cp idx "expected field ref") fun tag =>
  match tag with
  | .FieldRef class_index name_and_ty => .ok ⟨idx, class_index, name_and_ty⟩
  | _ => .panicked "expected field ref"

/-- Modelled from the spec: `CPMethodRef`, a resolved method-reference
handle. -/
structure CPMethodRef : Type where
  index : Nat
  class_index : Nat
  name_and_ty : CPNameAndTypeRef
deriving DecidableEq, Repr

/-- Modelled from the spec: `CPMethodRef::from_cp`, kind-checked. -/
def CPMethodRef.from_cp (cp : List IRCpTag) (idx : Nat) : Outcome CPMethodRef :=
  Outcome.bind (cpGetOneBased cp idx "expected method ref") fun tag =>
  match tag with
  | .MethodRef class_index name_and_ty => .ok ⟨idx, class_index, name_and_ty⟩
  | _ => .panicked "expected method ref"

/-- Modelled from the spec: `CPInterfaceMethodRef`, kind-checked. -/
structure CPInterfaceMethodRef : Type where
  index : Nat
  class_index : Nat
  name_and_ty : CPNameAndTypeRef
deriving DecidableEq, Repr

/-- Modelled from the spec: `CPInterfaceMethodRef::from_cp`. -/
def CPInterfaceMethodRef.from_cp (cp : List IRCpTag) (idx : Nat) :
    Outcome CPInterfaceMethodRef :=
  Outcome.bind (cpGetOneBased cp idx "expected interface method ref") fun tag =>
  match tag with
  | .InterfaceMethodRef class_index name_and_ty => .ok ⟨idx, class_index, name_and_ty⟩
  | _ => .panicked "expected interface method ref"

/-- Modelled from the spec: `CPInvokeDynamicRef` (the invoke-dynamic-site
entry required by the `invokedynamic` opcode, §4.3). -/
structure CPInvokeDynamicRef : Type where
  index : Nat
  bootstrap_method_attr_index : Nat
  name_and_ty : CPNameAndTypeRef
deriving DecidableEq, Repr

/-- Modelled from the spec: `CPInvokeDynamicRef::from_cp`. -/
def CPInvokeDynamicRef.from_cp (cp : List IRCpTag) (idx : Nat) :
    Outcome CPInvokeDynamicRef :=
  Outcome.bind (cpGetOneBased cp idx "expected invoke dynamic") fun tag =>
  match tag with
  | .InvokeDynamic bootstrap_method_attr_index name_and_ty =>
      .ok ⟨idx, bootstrap_method_attr_index, name_and_ty⟩
  | _ => .panicked "expected invoke dynamic"

/-- Modelled from the spec: `CPUtf8Ref::from_cp` (lookup then
`CPUtf8Ref::new`, which is in src). -/
def CPUtf8Ref.from_cp (cp : List IRCpTag) (idx : Nat) : Outcome CPUtf8Ref :=
  Outcome.bind (cpGetOneBased cp idx "expected utf8") fun tag =>
  CPUtf8Ref.new idx tag

/-- Modelled from the spec: `CPNameAndTypeRef::from_cp`, kind-checked. -/
def CPNameAndTypeRef.from_cp (cp : List IRCpTag) (idx : Nat) :
    Outcome CPNameAndTypeRef :=
  Outcome.bind (cpGetOneBased cp idx "expected name and type") fun tag =>
  match tag with
  | .NameAndType name descriptor => .ok ⟨idx, name, descriptor⟩
  | _ => .panicked "expected name and type"

/-- Modelled from the spec: `CPMethodHandleRef::from_cp` (the resolved
method-handle entry already owns its referenced tag). -/
def CPMethodHandleRef.from_cp (cp : List IRCpTag) (idx : Nat) :
    Outcome CPMethodHandleRef :=
  Outcome.bind (cpGetOneBased cp idx "expected method handle") fun tag =>
  match tag with
  | .MethodHandle r => .ok r
  | _ => .panicked "expected method handle"

/-- Modelled from the spec: `CPConstValueRef` — a handle to a loadable
constant; §3's invariant names the accepted kinds {int, float, long,
double, string}. -/
structure CPConstValueRef : Type where
  index : Nat
  tag : IRCpTag

/-- Modelled from the spec: `CPConstValueRef::from_cp`, kind-checked
against {int, float, long, double, string}. -/
def CPConstValueRef.from_cp (cp : List IRCpTag) (idx : Nat) :
    Outcome CPConstValueRef :=
  Outcome.bind (cpGetOneBased cp idx "expected const value") fun tag =>
  match tag with
  | .Integer v => .ok ⟨idx, .Integer v⟩
  | .Float v => .ok ⟨idx, .Float v⟩
  | .Long v => .ok ⟨idx, .Long v⟩
  | .Double v => .ok ⟨idx, .Double v⟩
  | .String r => .ok ⟨idx, .String r⟩
  | _ => .panicked "expected const value"

/-- Modelled from the spec: `CPModuleInfoRef` — `IRCpTag` has no module
kind, so the handle keeps the index and the entry it found. -/
structure CPModuleInfoRef : Type where
  index : Nat
  tag : IRCpTag

/-- Modelled from the spec: `CPModuleInfoRef::from_cp`. -/
def CPModuleInfoRef.from_cp (cp : List IRCpTag) (idx : Nat) :
    Outcome CPModuleInfoRef :=
  Outcome.bind (cpGetOneBased cp idx "expected module info") fun tag =>
  .ok ⟨idx, tag⟩

/-- Modelled from the spec: `CPPackageInfoRef`, as for modules. -/
structure CPPackageInfoRef : Type where
  index : Nat
  tag : IRCpTag

/-- Modelled from the spec: `CPPackageInfoRef::from_cp`. -/
def CPPackageInfoRef.from_cp (cp : List IRCpTag) (idx : Nat) :
    Outcome CPPackageInfoRef :=
  Outcome.bind (cpGetOneBased cp idx "expected package info") fun tag =>
  .ok ⟨idx, tag⟩

/-- Modelled from the spec: `CPTagRef`, an untyped handle to any pool
entry (bootstrap-method arguments may be any loadable entry). -/
structure CPTagRef : Type where
  index : Nat
  tag : IRCpTag

/-- Modelled from the spec: `CPTagRef::from_cp`. -/
def CPTagRef.from_cp (cp : List IRCpTag) (idx : Nat) : Outcome CPTagRef :=
  Outcome.bind (cpGetOneBased cp idx "expected tag") fun tag =>
  .ok ⟨idx, tag⟩

/-- The resolved form of `mathAddPool`. -/
def mathAddResolved : List IRCpTag :=
  [.Utf8 "add",
   .Utf8 "(II)I",
   .NameAndType ⟨"add", 1⟩ ⟨"(II)I", 2⟩,
   .Utf8 "java/lang/Math",
   .Class ⟨"java/lang/Math", 4⟩,
   .MethodRef 5 ⟨3, ⟨"add", 1⟩, ⟨"(II)I", 2⟩⟩]

/-- C6, witness: instantiate the agreement theorem on the §8 example pool
at position `2` (the `NameAndType` entry shared by reference) and memo
stage `0` (a forward reference, resolved early with an empty memo). -/
theorem c6_direct_indirect_agree_witness :
    IRCpTag.parse_tag_idx mutf8Ascii (mathAddPool.length + 1) 3 mathAddPool
      (mathAddResolved.take 0) = .ok (.NameAndType ⟨"add", 1⟩ ⟨"(II)I", 2⟩) :=
  c6_direct_indirect_agree mutf8Ascii mathAddPool mathAddResolved rfl rfl 2
    (.NameAndType ⟨"add", 1⟩ ⟨"(II)I", 2⟩) rfl 0 (Nat.zero_le _)

/-! ## The instruction decoder (code.rs)

Embeds the `Instructions` enum (code.rs:176): an opcode together with the
data it contains, if any.  Variant discriminants are the opcode values of
the source; variants the decoder never produces are still present, as in
the source. -/

inductive Instructions : Type where
  | NOP                                                          -- 0
  | ACONST_NULL                                                  -- 1
  | ICONST_M1                                                    -- 2
  | ICONST_0                                                     -- 3
  | ICONST_1                                                     -- 4
  | ICONST_2                                                     -- 5
  | ICONST_3                                                     -- 6
  | ICONST_4                                                     -- 7
  | ICONST_5                                                     -- 8
  | LCONST_0                                                     -- 9
  | LCONST_1                                                     -- 10
  | FCONST_0                                                     -- 11
  | FCONST_1                                                     -- 12
  | FCONST_2                                                     -- 13
  | DCONST_0                                                     -- 14
  | DCONST_1                                                     -- 15
  | BIPUSH (b : Nat)                                             -- 16
  | SIPUSH (s : Nat)                                             -- 17
  | LDC (tag : IRCpTag)                                          -- 18
  | ILOAD (n : Nat)                                              -- 21
  | LLOAD (n : Nat)                                              -- 22
  | FLOAD (n : Nat)                                              -- 23
  | DLOAD (n : Nat)                                              -- 24
  | ALOAD (n : Nat)                                              -- 25
  | IALOAD                                                       -- 46
  | LALOAD                                                       -- 47
  | FALOAD                                                       -- 48
  | DALOAD                                                       -- 49
  | AALOAD                                                       -- 50
  | BALOAD                                                       -- 51
  | CALOAD                                                       -- 52
  | SALOAD                                                       -- 53
  | ISTORE (n : Nat)                                             -- 54
  | LSTORE (n : Nat)                                             -- 55
  | FSTORE (n : Nat)                                             -- 56
  | DSTORE (n : Nat)                                             -- 57
  | ASTORE (n : Nat)                                             -- 58
  | IASTORE                                                      -- 79
  | LASTORE                                                      -- 80
  | FASTORE                                                      -- 81
  | DASTORE                                                      -- 82
  | AASTORE                                                      -- 83
  | BASTORE                                                      -- 84
  | CASTORE                                                      -- 85
  | SASTORE                                                      -- 86
  | POP                                                          -- 87
  | POP2                                                         -- 88
  | DUP                                                          -- 89
  | DUP_X1                                                       -- 90
  | DUP_X2                                                       -- 91
  | DUP2                                                         -- 92
  | DUP2_X1                                                      -- 93
  | DUP2_X2                                                      -- 94
  | SWAP                                                         -- 95
  | IADD                                                         -- 96
  | LADD                                                         -- 97
  | FADD                                                         -- 98
  | DADD                                                         -- 99
  | ISUB                                                         -- 100
  | LSUB                                                         -- 101
  | FSUB                                                         -- 102
  | DSUB                                                         -- 103
  | IMUL                                                         -- 104
  | LMUL                                                         -- 105
  | FMUL                                                         -- 106
  | DMUL                                                         -- 107
  | IDIV                                                         -- 108
  | LDIV                                                         -- 109
  | FDIV                                                         -- 110
  | DDIV                                                         -- 111
  | IREM                                                         -- 112
  | LREM                                                         -- 113
  | FREM                                                         -- 114
  | DREM                                                         -- 115
  | INEG                                                         -- 116
  | LNEG                                                         -- 117
  | FNEG                                                         -- 118
  | DNEG                                                         -- 119
  | ISHL                                                         -- 120
  | LSHL                                                         -- 121
  | ISHR                                                         -- 122
  | LSHR                                                         -- 123
  | IUSHR                                                        -- 124
  | LUSHR                                                        -- 125
  | IAND                                                         -- 126
  | LAND                                                         -- 127
  | IOR                                                          -- 128
  | LOR                                                          -- 129
  | IXOR                                                         -- 130
  | LXOR                                                         -- 131
  | IINC (index : Nat) (cnst : Nat)                              -- 132 (`const` in the source)
  | I2L                                                          -- 133
  | I2F                                                          -- 134
  | I2D                                                          -- 135
  | L2I                                                          -- 136
  | L2F                                                          -- 137
  | L2D                                                          -- 138
  | F2I                                                          -- 139
  | F2L                                                          -- 140
  | F2D                                                          -- 141
  | D2I                                                          -- 142
  | D2L                                                          -- 143
  | D2F                                                          -- 144
  | I2B                                                          -- 145
  | I2C                                                          -- 146
  | I2S                                                          -- 147
  | LCMP                                                         -- 148
  | FCMPL                                                        -- 149
  | FCMPG                                                        -- 150
  | DCMPL                                                        -- 151
  | DCMPG                                                        -- 152
  | IFEQ (off : Nat)                                             -- 153
  | IFNE (off : Nat)                                             -- 154
  | IFLT (off : Nat)                                             -- 155
  | IFGE (off : Nat)                                             -- 156
  | IFGT (off : Nat)                                             -- 157
  | IFLE (off : Nat)                                             -- 158
  | IF_ICMPEQ (off : Nat)                                        -- 159
  | IF_ICMPNE (off : Nat)                                        -- 160
  | IF_ICMPLT (off : Nat)                                        -- 161
  | IF_ICMPGE (off : Nat)                                        -- 162
  | IF_ICMPGT (off : Nat)                                        -- 163
  | IF_ICMPLE (off : Nat)                                        -- 164
  | IF_ACMPEQ (off : Nat)                                        -- 165
  | IF_ACMPNE (off : Nat)                                        -- 166
  | GOTO (off : Nat)                                             -- 167
  | JSR                                                          -- 168
  | RET                                                          -- 169
  | TABLESWITCH                                                  -- 170
  | LOOKUPSWITCH                                                 -- 171
  | IRETURN                                                      -- 172
  | LRETURN                                                      -- 173
  | FRETURN                                                      -- 174
  | DRETURN                                                      -- 175
  | ARETURN                                                      -- 176
  | RETURN                                                       -- 177
  | GETSTATIC (r : CPFieldRef)                                   -- 178
  | PUTSTATIC (r : CPFieldRef)                                   -- 179
  | GETFIELD (r : CPFieldRef)                                    -- 180
  | PUTFIELD (r : CPFieldRef)                                    -- 181
  | INVOKEVIRTUAL (r : CPMethodRef)                              -- 182
  | INVOKESPECIAL (r : CPMethodRef)                              -- 183
  | INVOKESTATIC (r : CPMethodRef)                               -- 184
  | INVOKEINTERFACE (method : CPInterfaceMethodRef) (count : Nat)  -- 185
  | INVOKEDYNAMIC (r : CPInvokeDynamicRef)                       -- 186
  | NEW (r : CPClassRef)                                         -- 187
  | NEWARRAY (atype : Nat)                                       -- 188
  | ANEWARRAY (r : CPClassRef)                                   -- 189
  | ARRAYLENGTH                                                  -- 190
  | ATHROW                                                       -- 191
  | CHECKCAST (r : CPClassRef)                                   -- 192
  | INSTANCEOF (r : CPClassRef)                                  -- 193
  | MONITORENTER                                                 -- 194
  | MONITOREXIT                                                  -- 195
  | MULTIANEWARRAY                                               -- 197
  | IFNULL (off : Nat)                                           -- 198
  | IFNONNULL (off : Nat)                                        -- 199

/-- Embeds `Instructions::read` (code.rs:339).  One opcode byte selects an
arm; the arms appear in the order of the source.  The source's two
`todo!` arms (`tableswitch` and the catch-all for every opcode it does
not list) abort the process; they become `panicked` outcomes. -/
def Instructions.read (cp : List IRCpTag) : ParseM Instructions := do
  let op ← readU8
  match op with
  | 180 => do   -- Opcodes::GETFIELD
      let idx ← readU16
      let r ← liftO (CPFieldRef.from_cp cp idx)
      pure (.GETFIELD r)
  | 178 => do   -- Opcodes::GETSTATIC
      let idx ← readU16
      let r ← liftO (CPFieldRef.from_cp cp idx)
      pure (.GETSTATIC r)
  | 179 => do   -- Opcodes::PUTSTATIC
      let idx ← readU16
      let r ← liftO (CPFieldRef.from_cp cp idx)
      pure (.PUTSTATIC r)
  | 18 => do    -- Opcodes::LDC: cp.get(operand.saturating_sub(1)).cloned().expect("fuck")
      let n ← readU8
      match cp.get? (n - 1) with
      | some t => pure (.LDC t)
      | none => panicM "fuck"
  | 19 => do    -- LDC_W (0x13)
      let n ← readU16
      match cp.get? (n - 1) with
      | some t => pure (.LDC t)
      | none => panicM "fuck"
  | 182 => do   -- Opcodes::INVOKEVIRTUAL
      let idx ← readU16
      let r ← liftO (CPMethodRef.from_cp cp idx)
      pure (.INVOKEVIRTUAL r)
  | 183 => do   -- Opcodes::INVOKESPECIAL
      let idx ← readU16
      let r ← liftO (CPMethodRef.from_cp cp idx)
      pure (.INVOKESPECIAL r)
  | 184 => do   -- Opcodes::INVOKESTATIC
      let idx ← readU16
      let r ← liftO (CPMethodRef.from_cp cp idx)
      pure (.INVOKESTATIC r)
  | 185 => do   -- Opcodes::INVOKEINTERFACE: index, count, then a discarded byte
      let idx ← readU16
      let method ← liftO (CPInterfaceMethodRef.from_cp cp idx)
      let count ← readU8
      let _ ← readU8
      pure (.INVOKEINTERFACE method count)
  | 186 => do   -- Opcodes::INVOKEDYNAMIC: index, then two discarded bytes
      let idx ← readU16
      let r ← liftO (CPInvokeDynamicRef.from_cp cp idx)
      let _ ← readU16
      pure (.INVOKEDYNAMIC r)
  | 177 => pure .RETURN
  | 25 => do    -- Opcodes::ALOAD
      let n ← readU8
      pure (.ALOAD n)
  | 42 => pure (.ALOAD 0)   -- aload_0 (0x2A)
  | 43 => pure (.ALOAD 1)   -- aload_1 (0x2B)
  | 44 => pure (.ALOAD 2)   -- aload_2 (0x2C)
  | 45 => pure (.ALOAD 3)   -- aload_3 (0x2D)
  | 58 => do    -- Opcodes::ASTORE
      let n ← readU8
      pure (.ASTORE n)
  | 75 => pure (.ASTORE 0)  -- astore_0 (0x4B)
  | 76 => pure (.ASTORE 1)  -- astore_1 (0x4C)
  | 77 => pure (.ASTORE 2)  -- astore_2 (0x4D)
  | 78 => pure (.ASTORE 3)  -- astore_3 (0x4E)
  | 187 => do   -- Opcodes::NEW
      let idx ← readU16
      let r ← liftO (CPClassRef.from_cp cp idx)
      pure (.NEW r)
  | 89 => pure .DUP
  | 181 => do   -- Opcodes::PUTFIELD
      let idx ← readU16
      let r ← liftO (CPFieldRef.from_cp cp idx)
      pure (.PUTFIELD r)
  | 2 => pure .ICONST_M1
  | 3 => pure .ICONST_0
  | 4 => pure .ICONST_1
  | 5 => pure .ICONST_2
  | 6 => pure .ICONST_3
  | 7 => pure .ICONST_4
  | 8 => pure .ICONST_5
  | 172 => pure .IRETURN
  | 176 => pure .ARETURN
  | 174 => pure .FRETURN
  | 21 => do    -- Opcodes::ILOAD
      let n ← readU8
      pure (.ILOAD n)
  | 26 => pure (.ILOAD 0)   -- iload_0 (0x1A)
  | 27 => pure (.ILOAD 1)   -- iload_1 (0x1B)
  | 28 => pure (.ILOAD 2)   -- iload_2 (0x1C)
  | 29 => pure (.ILOAD 3)   -- iload_3 (0x1D)
  | 54 => do    -- Opcodes::ISTORE
      let n ← readU8
      pure (.ISTORE n)
  | 59 => pure (.ISTORE 0)  -- istore_0 (0x3B)
  | 60 => pure (.ISTORE 1)  -- istore_1 (0x3C)
  | 61 => pure (.ISTORE 2)  -- istore_2 (0x3D)
  | 62 => pure (.ISTORE 3)  -- istore_3 (0x3E)
  | 153 => do
      let off ← readU16
      pure (.IFEQ off)
  | 154 => do
      let off ← readU16
      pure (.IFNE off)
  | 155 => do
      let off ← readU16
      pure (.IFLT off)
  | 156 => do
      let off ← readU16
      pure (.IFGE off)
  | 157 => do
      let off ← readU16
      pure (.IFGT off)
  | 158 => do
      let off ← readU16
      pure (.IFLE off)
  | 159 => do
      let off ← readU16
      pure (.IF_ICMPEQ off)
  | 160 => do
      let off ← readU16
      pure (.IF_ICMPNE off)
  | 161 => do
      let off ← readU16
      pure (.IF_ICMPLT off)
  | 162 => do
      let off ← readU16
      pure (.IF_ICMPGE off)
  | 163 => do
      let off ← readU16
      pure (.IF_ICMPGT off)
  | 164 => do
      let off ← readU16
      pure (.IF_ICMPLE off)
  | 165 => do
      let off ← readU16
      pure (.IF_ACMPEQ off)
  | 166 => do
      let off ← readU16
      pure (.IF_ACMPNE off)
  | 198 => do
      let off ← readU16
      pure (.IFNULL off)
  | 199 => do
      let off ← readU16
      pure (.IFNONNULL off)
  | 167 => do
      let off ← readU16
      pure (.GOTO off)
  | 9 => pure .LCONST_0
  | 10 => pure .LCONST_1
  | 83 => pure .AASTORE
  | 23 => do    -- Opcodes::FLOAD
      let n ← readU8
      pure (.FLOAD n)
  | 34 => pure (.FLOAD 0)   -- fload_0 (0x22)
  | 35 => pure (.FLOAD 1)   -- fload_1 (0x23)
  | 36 => pure (.FLOAD 2)   -- fload_2 (0x24)
  | 37 => pure (.FLOAD 3)   -- fload_3 (0x25)
  | 22 => do    -- Opcodes::LLOAD
      let n ← readU8
      pure (.LLOAD n)
  | 30 => pure (.LLOAD 0)   -- lload_0 (0x1E)
  | 31 => pure (.LLOAD 1)   -- lload_1 (0x1F)
  | 32 => pure (.LLOAD 2)   -- lload_2 (0x20)
  | 33 => pure (.LLOAD 3)   -- lload_3 (0x21)
  | 55 => do    -- Opcodes::LSTORE
      let n ← readU8
      pure (.LSTORE n)
  | 63 => pure (.LSTORE 0)  -- lstore_0 (0x3F)
  | 64 => pure (.LSTORE 1)  -- lstore_1 (0x40)
  | 65 => pure (.LSTORE 2)  -- lstore_2 (0x41)
  | 66 => pure (.LSTORE 3)  -- lstore_3 (0x42)
  | 97 => pure .LADD
  | 16 => do    -- Opcodes::BIPUSH
      let b ← readU8
      pure (.BIPUSH b)
  | 17 => do    -- Opcodes::SIPUSH
      let s ← readU16
      pure (.SIPUSH s)
  | 191 => pure .ATHROW
  | 87 => pure .POP
  | 192 => do   -- Opcodes::CHECKCAST
      let idx ← readU16
      let r ← liftO (CPClassRef.from_cp cp idx)
      pure (.CHECKCAST r)
  | 193 => do   -- Opcodes::INSTANCEOF
      let idx ← readU16
      let r ← liftO (CPClassRef.from_cp cp idx)
      pure (.INSTANCEOF r)
  | 95 => pure .SWAP
  | 0 => pure .NOP
  | 189 => do   -- Opcodes::ANEWARRAY
      let idx ← readU16
      let r ← liftO (CPClassRef.from_cp cp idx)
      pure (.ANEWARRAY r)
  | 126 => pure .IAND
  | 1 => pure .ACONST_NULL
  | 190 => pure .ARRAYLENGTH
  | 79 => pure .IASTORE
  | 46 => pure .IALOAD
  | 50 => pure .AALOAD
  | 132 => do   -- Opcodes::IINC
      let index ← readU8
      let cnst ← readU8
      pure (.IINC index cnst)
  | 188 => do   -- Opcodes::NEWARRAY
      let atype ← readU8
      pure (.NEWARRAY atype)
  | 170 => panicM "not yet implemented: tableswitch"   -- todo!(..)
  | _ => panicM "not yet implemented: unparsed opcode"  -- todo!("unparsed opcode 0x{b:02X}")

theorem read_nop_eval : Instructions.read [] [0, 99] 0 = .ok (.NOP, 1) := rfl

theorem read_aload0_eval : Instructions.read [] [42] 0 = .ok (.ALOAD 0, 1) := rfl

theorem read_aload_long_eval :
    Instructions.read [] [25, 0] 0 = .ok (.ALOAD 0, 2) := rfl

theorem read_bipush_truncated_eval :
    Instructions.read [] [16] 0 = .error .Truncated := rfl

@[simp] theorem liftO_apply {α : Type} (o : Outcome α) (bs : List Nat) (pos : Nat) :
    liftO o bs pos =
      match o with
      | .ok a => .ok (a, pos)
      | .error e => .error e
      | .panicked m => .panicked m := rfl

/-- C1.  Decoding an unassigned opcode does not produce a typed
`UnknownOpcode` failure: opcode byte `0xCA` (202, unassigned in the
decoder) falls into the source's catch-all `todo!("unparsed opcode ..")`
arm (code.rs:474), which aborts the process, and `tableswitch` (0xAA)
aborts through its own explicit `todo!` arm (code.rs:471).  No
`UnknownOpcode` error exists anywhere in the code. -/
theorem c1_unknown_opcode_aborts :
    Instructions.read [] [202] 0 =
      .panicked "not yet implemented: unparsed opcode" ∧
    Instructions.read [] [170] 0 =
      .panicked "not yet implemented: tableswitch" :=
  ⟨rfl, rfl⟩

/-- C7.  For every constant pool and every byte suffix, each aliased
compressed load/store opcode (`aload_N`, `iload_N`, `fload_N`, `lload_N`,
`astore_N`, `istore_N`, `lstore_N` for N in 0..3) decodes to the same
canonical parametrized instruction as the long form with explicit operand
N; in particular `0x2A` (`aload_0`) and `0x19 0x00` (`aload 0`) both give
`ALOAD 0`. -/
theorem c7_alias_normalization (cp : List IRCpTag) (rest : List Nat)
    (n : Nat) (hn : n ≤ 3) :
    (Instructions.read cp ((42 + n) :: rest) 0 = .ok (.ALOAD n, 1) ∧
      Instructions.read cp (25 :: n :: rest) 0 = .ok (.ALOAD n, 2)) ∧
    (Instructions.read cp ((26 + n) :: rest) 0 = .ok (.ILOAD n, 1) ∧
      Instructions.read cp (21 :: n :: rest) 0 = .ok (.ILOAD n, 2)) ∧
    (Instructions.read cp ((34 + n) :: rest) 0 = .ok (.FLOAD n, 1) ∧
      Instructions.read cp (23 :: n :: rest) 0 = .ok (.FLOAD n, 2)) ∧
    (Instructions.read cp ((30 + n) :: rest) 0 = .ok (.LLOAD n, 1) ∧
      Instructions.read cp (22 :: n :: rest) 0 = .ok (.LLOAD n, 2)) ∧
    (Instructions.read cp ((75 + n) :: rest) 0 = .ok (.ASTORE n, 1) ∧
      Instructions.read cp (58 :: n :: rest) 0 = .ok (.ASTORE n, 2)) ∧
    (Instructions.read cp ((59 + n) :: rest) 0 = .ok (.ISTORE n, 1) ∧
      Instructions.read cp (54 :: n :: rest) 0 = .ok (.ISTORE n, 2)) ∧
    (Instructions.read cp ((63 + n) :: rest) 0 = .ok (.LSTORE n, 1) ∧
      Instructions.read cp (55 :: n :: rest) 0 = .ok (.LSTORE n, 2)) := by
  interval_cases n <;>
    refine ⟨⟨?_, rfl⟩, ⟨?_, rfl⟩, ⟨?_, rfl⟩, ⟨?_, rfl⟩, ⟨?_, rfl⟩,
      ⟨?_, rfl⟩, ⟨?_, rfl⟩⟩ <;>
    · simp only [Nat.reduceAdd]
      rfl

/-- C7, witness: the spec's own instance, `0x2A` versus `0x19 0x00` at
local slot `0`. -/
theorem c7_alias_normalization_witness :
    (Instructions.read [] [42] 0 = .ok (.ALOAD 0, 1) ∧
      Instructions.read [] [25, 0] 0 = .ok (.ALOAD 0, 2)) ∧
    (Instructions.read [] [26] 0 = .ok (.ILOAD 0, 1) ∧
      Instructions.read [] [21, 0] 0 = .ok (.ILOAD 0, 2)) ∧
    (Instructions.read [] [34] 0 = .ok (.FLOAD 0, 1) ∧
      Instructions.read [] [23, 0] 0 = .ok (.FLOAD 0, 2)) ∧
    (Instructions.read [] [30] 0 = .ok (.LLOAD 0, 1) ∧
      Instructions.read [] [22, 0] 0 = .ok (.LLOAD 0, 2)) ∧
    (Instructions.read [] [75] 0 = .ok (.ASTORE 0, 1) ∧
      Instructions.read [] [58, 0] 0 = .ok (.ASTORE 0, 2)) ∧
    (Instructions.read [] [59] 0 = .ok (.ISTORE 0, 1) ∧
      Instructions.read [] [54, 0] 0 = .ok (.ISTORE 0, 2)) ∧
    (Instructions.read [] [63] 0 = .ok (.LSTORE 0, 1) ∧
      Instructions.read [] [55, 0] 0 = .ok (.LSTORE 0, 2)) :=
  c7_alias_normalization [] [] 0 (by decide)

/-- Evaluation of a successful `invokeinterface` decode: one opcode byte,
a two-byte pool index, a one-byte count, one further consumed-and-
discarded byte; five bytes in total. -/
theorem invokeinterface_eval (cp : List IRCpTag) (h l cnt pad : Nat)
    (rest : List Nat) (m : CPInterfaceMethodRef)
    (hm : CPInterfaceMethodRef.from_cp cp (h * 256 + l) = .ok m) :
    Instructions.read cp (185 :: h :: l :: cnt :: pad :: rest) 0 =
      .ok (.INVOKEINTERFACE m cnt, 5) := by
  have h0 : Instructions.read cp (185 :: h :: l :: cnt :: pad :: rest) 0 =
      ParseM.bind (liftO (CPInterfaceMethodRef.from_cp cp (h * 256 + l)))
        (fun method =>
          ParseM.bind readU8 (fun count =>
            ParseM.bind readU8 (fun _ =>
              ParseM.pure (.INVOKEINTERFACE method count))))
        (185 :: h :: l :: cnt :: pad :: rest) 3 := rfl
  rw [h0, ParseM.bind_apply, liftO_apply, hm]
  rfl

/-- Evaluation of a successful `invokedynamic` decode: one opcode byte, a
two-byte pool index, two further consumed-and-discarded bytes; five bytes
in total. -/
theorem invokedynamic_eval (cp : List IRCpTag) (h l p₁ p₂ : Nat)
    (rest : List Nat) (d : CPInvokeDynamicRef)
    (hd : CPInvokeDynamicRef.from_cp cp (h * 256 + l) = .ok d) :
    Instructions.read cp (186 :: h :: l :: p₁ :: p₂ :: rest) 0 =
      .ok (.INVOKEDYNAMIC d, 5) := by
  have h0 : Instructions.read cp (186 :: h :: l :: p₁ :: p₂ :: rest) 0 =
      ParseM.bind (liftO (CPInvokeDynamicRef.from_cp cp (h * 256 + l)))
        (fun r =>
          ParseM.bind readU16 (fun _ =>
            ParseM.pure (.INVOKEDYNAMIC r)))
        (186 :: h :: l :: p₁ :: p₂ :: rest) 3 := rfl
  rw [h0, ParseM.bind_apply, liftO_apply, hd]
  rfl

/-- C9.  `invokeinterface` consumes its 2-byte pool index, its count byte
and one mandated padding byte; `invokedynamic` consumes its 2-byte pool
index and two mandated padding bytes (five bytes each, opcode included);
and two streams that differ only in those discarded padding bytes decode
to the identical instruction. -/
theorem c9_padding_discarded (cp : List IRCpTag)
    (h₁ l₁ cnt pad pad' h₂ l₂ q₁ q₂ q₁' q₂' : Nat) (rest : List Nat)
    (m : CPInterfaceMethodRef) (d : CPInvokeDynamicRef)
    (hm : CPInterfaceMethodRef.from_cp cp (h₁ * 256 + l₁) = .ok m)
    (hd : CPInvokeDynamicRef.from_cp cp (h₂ * 256 + l₂) = .ok d) :
    (Instructions.read cp (185 :: h₁ :: l₁ :: cnt :: pad :: rest) 0 =
        .ok (.INVOKEINTERFACE m cnt, 5) ∧
      Instructions.read cp (185 :: h₁ :: l₁ :: cnt :: pad' :: rest) 0 =
        .ok (.INVOKEINTERFACE m cnt, 5)) ∧
    (Instructions.read cp (186 :: h₂ :: l₂ :: q₁ :: q₂ :: rest) 0 =
        .ok (.INVOKEDYNAMIC d, 5) ∧
      Instructions.read cp (186 :: h₂ :: l₂ :: q₁' :: q₂' :: rest) 0 =
        .ok (.INVOKEDYNAMIC d, 5)) :=
  ⟨⟨invokeinterface_eval cp h₁ l₁ cnt pad rest m hm,
    invokeinterface_eval cp h₁ l₁ cnt pad' rest m hm⟩,
   ⟨invokedynamic_eval cp h₂ l₂ q₁ q₂ rest d hd,
    invokedynamic_eval cp h₂ l₂ q₁' q₂' rest d hd⟩⟩

/-- A two-entry pool for the padding witness: an interface method
reference and an invoke-dynamic site. -/
def paddingPool : List IRCpTag :=
  [.InterfaceMethodRef 9 ⟨4, ⟨"m", 5⟩, ⟨"()V", 6⟩⟩,
   .InvokeDynamic 0 ⟨4, ⟨"m", 5⟩, ⟨"()V", 6⟩⟩]

/-- C9, witness: concrete padding bytes `7` versus `9` (and `3 4` versus
`5 6`) leave the decoded instructions unchanged. -/
theorem c9_padding_discarded_witness :
    (Instructions.read paddingPool [185, 0, 1, 1, 7] 0 =
        .ok (.INVOKEINTERFACE ⟨1, 9, ⟨4, ⟨"m", 5⟩, ⟨"()V", 6⟩⟩⟩ 1, 5) ∧
      Instructions.read paddingPool [185, 0, 1, 1, 9] 0 =
        .ok (.INVOKEINTERFACE ⟨1, 9, ⟨4, ⟨"m", 5⟩, ⟨"()V", 6⟩⟩⟩ 1, 5)) ∧
    (Instructions.read paddingPool [186, 0, 2, 3, 4] 0 =
        .ok (.INVOKEDYNAMIC ⟨2, 0, ⟨4, ⟨"m", 5⟩, ⟨"()V", 6⟩⟩⟩, 5) ∧
      Instructions.read paddingPool [186, 0, 2, 5, 6] 0 =
        .ok (.INVOKEDYNAMIC ⟨2, 0, ⟨4, ⟨"m", 5⟩, ⟨"()V", 6⟩⟩⟩, 5)) :=
  c9_padding_discarded paddingPool 0 1 1 7 9 0 2 3 4 5 6 []
    ⟨1, 9, ⟨4, ⟨"m", 5⟩, ⟨"()V", 6⟩⟩⟩ ⟨2, 0, ⟨4, ⟨"m", 5⟩, ⟨"()V", 6⟩⟩⟩ rfl rfl

/-- C10.  The `ldc` operand is translated to 0-based storage with a
saturating subtraction (`saturating_sub(1)`, code.rs:345), so operand `0`
and operand `1` are treated identically: on any non-empty pool, both
`0x12 0x00` and `0x12 0x01` succeed and load the pool's first entry
rather than index `0` being rejected; `ldc_w` (0x13) behaves the same on
its two-byte operand. -/
theorem c10_ldc_saturating_index (t : IRCpTag) (cps : List IRCpTag)
    (rest : List Nat) :
    Instructions.read (t :: cps) (18 :: 0 :: rest) 0 = .ok (.LDC t, 2) ∧
    Instructions.read (t :: cps) (18 :: 1 :: rest) 0 = .ok (.LDC t, 2) ∧
    Instructions.read (t :: cps) (19 :: 0 :: 0 :: rest) 0 = .ok (.LDC t, 3) ∧
    Instructions.read (t :: cps) (19 :: 0 :: 1 :: rest) 0 = .ok (.LDC t, 3) :=
  ⟨rfl, rfl, rfl, rfl⟩

/-! ## The attribute decoder (attribute.rs): data model -/

/-- Embeds `ConstantValueAttribute` (attribute.rs:12). -/
inductive ConstantValueAttribute : Type where
  | Long (cp_idx : Nat) (value : Int)
  | Float (cp_idx : Nat) (bits : Nat)
  | Double (cp_idx : Nat) (bits : Nat)
  | Int (cp_idx : Nat) (value : Int)
  | String (r : CPUtf8Ref)

/-- Embeds `VerificationTypeInfo` (attribute.rs:27). -/
inductive VerificationTypeInfo : Type where
  | TopVariableInfo
  | IntegerVariableInfo
  | FloatVariableInfo
  | LongVariableInfo
  | DoubleVariableInfo
  | NullVariableInfo
  | UninitializedThisVariableInfo
  | ObjectVariableInfo (cpool_idx : Nat)
  | UninitializedVariableInfo (offset : Nat)
deriving DecidableEq, Repr

/-- Embeds `StackMapFrame` (attribute.rs:62). -/
inductive StackMapFrame : Type where
  | SameFrame (frame_type : Nat) (offset_delta : Nat)
  | SameLocals1StackItemFrame (frame_type : Nat) (offset_delta : Nat)
      (stack : VerificationTypeInfo)
  | SameLocals1StackItemFrameExtended (frame_type : Nat) (offset_delta : Nat)
      (stack : VerificationTypeInfo)
  | ChopFrame (frame_type : Nat) (offset_delta : Nat)
  | SameFrameExtended (frame_type : Nat) (offset_delta : Nat)
  | AppendFrame (frame_type : Nat) (offset_delta : Nat)
      (locals : List VerificationTypeInfo)
  | FullFrame (frame_type : Nat) (offset_delta : Nat)
      (locals : List VerificationTypeInfo) (stack : List VerificationTypeInfo)
deriving DecidableEq, Repr

/-- Embeds `StackMapTableAttribute` (attribute.rs:21). -/
structure StackMapTableAttribute : Type where
  entries : List StackMapFrame
deriving DecidableEq, Repr

/-- Embeds `InnerClassesAttributeClass` (attribute.rs:178). -/
structure InnerClassesAttributeClass : Type where
  inner_class_info : CPClassRef
  outer_class_info : Option CPClassRef
  inner_name : Option CPUtf8Ref
  inner_class_access_flags : Nat
deriving DecidableEq, Repr

/-- Embeds `InnerClassesAttribute` (attribute.rs:214). -/
structure InnerClassesAttribute : Type where
  classes : List InnerClassesAttributeClass
deriving DecidableEq, Repr

/-- Embeds `CodeAttributeException` (attribute.rs:219): the four raw
fields of an exception-table entry, no pool resolution. -/
structure CodeAttributeException : Type where
  start_pc : Nat
  end_pc : Nat
  handler_pc : Nat
  catch_type : Nat
deriving DecidableEq, Repr

/-- Embeds `LineNumberTableAttributeEntry` (attribute.rs:278). -/
structure LineNumberTableAttributeEntry : Type where
  start_pc : Nat
  line_number : Nat
deriving DecidableEq, Repr

/-- Embeds `LineNumberTableAttribute` (attribute.rs:284). -/
structure LineNumberTableAttribute : Type where
  line_number_table : List LineNumberTableAttributeEntry
deriving DecidableEq, Repr

/-- Embeds `MethodParametersParam` (attribute.rs:305). -/
structure MethodParametersParam : Type where
  name : Option CPUtf8Ref
  access_flags : Nat
deriving DecidableEq, Repr

/-! Embeds `RuntimeAnnotationValue`, `RuntimeAnnotation` and
`RuntimeAnnotationEVPair` (attribute.rs:329, 379, 373), a mutually
recursive family (`RuntimeAnnotationItem` embeds the source's
`RuntimeAnnotation` struct; the nested-annotation constructor is named
`Annot` for the source's `Annotation`). -/
mutual
inductive RuntimeAnnotationValue : Type where
  | ConstValueIndex (r : CPConstValueRef)
  | EnumConstValue (type_name : CPUtf8Ref) (const_name : CPUtf8Ref)
  | ClassInfoIndex (r : CPUtf8Ref)
  | Annot (a : RuntimeAnnotationItem)
  | ArrayValue (values : List RuntimeAnnotationValue)

inductive RuntimeAnnotationItem : Type where
  | mk (ty : CPUtf8Ref) (pairs : List RuntimeAnnotationEVPair)

inductive RuntimeAnnotationEVPair : Type where
  | mk (name : CPUtf8Ref) (value : RuntimeAnnotationValue)
end

/-- Embeds `RuntimeTypeAnnotationLocalVarTargetTableEntry`
(attribute.rs:509). -/
structure RuntimeTypeAnnotationLocalVarTargetTableEntry : Type where
  start_pc : Nat
  length : Nat
  index : Nat
deriving DecidableEq, Repr

/-- Embeds `RuntimeTypeAnnotationTargetInfo` (attribute.rs:516). -/
inductive RuntimeTypeAnnotationTargetInfo : Type where
  | TypeParameterTarget (type_param_index : Nat)
  | SupertypeTarget (supertype_index : Nat)
  | TypeParameterBoundTarget (type_param_index : Nat) (bound_index : Nat)
  | EmptyTarget
  | FormalParameterTarget (formal_param_index : Nat)
  | ThrowsTarget (throws_type_index : Nat)
  | LocalvarTarget (table : List RuntimeTypeAnnotationLocalVarTargetTableEntry)
  | CatchTarget (exception_table_index : Nat)
  | OffsetTarget (offset : Nat)
  | TypeArgumentTarget (offset : Nat) (type_argument_index : Nat)
deriving DecidableEq, Repr

/-- Embeds `RuntimeTypeAnnotationTypePathPart` (attribute.rs:550). -/
structure RuntimeTypeAnnotationTypePathPart : Type where
  type_path_kind : Nat
  type_argument_kind : Nat
deriving DecidableEq, Repr

/-- Embeds `RuntimeTypeAnnotation` (attribute.rs:558). -/
structure RuntimeTypeAnnotationItem : Type where
  target_type : Nat
  target_info : RuntimeTypeAnnotationTargetInfo
  target_path : List RuntimeTypeAnnotationTypePathPart
  type_index : Nat
  pairs : List RuntimeAnnotationEVPair

/-- Embeds `BootstrapMethodsMethod` (attribute.rs:432). -/
structure BootstrapMethodsMethod : Type where
  method : CPMethodHandleRef
  arguments : List CPTagRef

/-- Embeds `LocalVariableTableEntry` (attribute.rs:455). -/
structure LocalVariableTableEntry : Type where
  start_pc : Nat
  length : Nat
  name : CPUtf8Ref
  descriptor : CPUtf8Ref
  index : Nat
deriving DecidableEq, Repr

/-- Embeds `LocalVariableTypeTableEntry` (attribute.rs:482). -/
structure LocalVariableTypeTableEntry : Type where
  start_pc : Nat
  length : Nat
  name : CPUtf8Ref
  signature : CPUtf8Ref
  index : Nat
deriving DecidableEq, Repr

/-- Embeds `ModuleRequiresEntry` (attribute.rs:653). -/
structure ModuleRequiresEntry : Type where
  module : CPModuleInfoRef
  flags : Nat
  version : Option CPUtf8Ref

/-- Embeds `ModuleExportsEntry` (attribute.rs:678). -/
structure ModuleExportsEntry : Type where
  package : CPPackageInfoRef
  flags : Nat
  exports : List CPModuleInfoRef

/-- Embeds `ModuleOpensEntry` (attribute.rs:705). -/
structure ModuleOpensEntry : Type where
  package : CPPackageInfoRef
  flags : Nat
  opens : List CPModuleInfoRef

/-- Embeds `ModuleProvidesEntry` (attribute.rs:732). -/
structure ModuleProvidesEntry : Type where
  cls : CPClassRef
  flags : Nat
  provides : List CPClassRef

/-- Modelled from the spec: `IOAttributeInfo` of the excluded IO layer — a
raw attribute record "(name index, declared length, byte blob)" (§6). -/
structure IOAttributeInfo : Type where
  attribute_name_index : Nat
  attribute_length : Nat
  info : List Nat
deriving DecidableEq, Repr

/-- Modelled from the spec: `IOAttributeInfo::read` — the raw record as
laid out by the class-file format: a 2-byte name index, a 4-byte length,
then that many raw bytes. -/
def IOAttributeInfo.read : ParseM IOAttributeInfo := do
  let attribute_name_index ← readU16
  let attribute_length ← readU32
  let info ← readBytes attribute_length
  pure ⟨attribute_name_index, attribute_length, info⟩

/-! Embeds `IRAttribute`, `IRAttributeInfo`, `CodeAttribute` and
`RecordComponentInfo` (attribute.rs:782, 759, 238, 407), mutually
recursive through nested attribute lists. -/
mutual
inductive CodeAttribute : Type where
  | mk (max_stack : Nat) (max_locals : Nat) (code : List Nat)
       (exception_table : List CodeAttributeException)
       (attributes : List IRAttributeInfo)

inductive RecordComponentInfo : Type where
  | mk (name : CPUtf8Ref) (descriptor : CPUtf8Ref)
       (attributes : List IRAttributeInfo)

inductive IRAttributeInfo : Type where
  | mk (name : CPUtf8Ref) (length : Nat) (attr : IRAttribute)

inductive IRAttribute : Type where
  | ConstantValue (v : ConstantValueAttribute)
  | Code (c : CodeAttribute)
  | StackMapTable (v : StackMapTableAttribute)
  | Exceptions (exception_index_table : List CPUtf8Ref)
  | InnerClasses (v : InnerClassesAttribute)
  | EnclosingMethod (cls : CPClassRef) (method : Option CPNameAndTypeRef)
  | Synthetic
  | Signature (r : CPUtf8Ref)
  | SourceFile (r : CPUtf8Ref)
  | SourceDebugExtension (s : String)
  | LineNumberTable (v : LineNumberTableAttribute)
  | LocalVariableTable (table : List LocalVariableTableEntry)
  | LocalVariableTypeTable (table : List LocalVariableTypeTableEntry)
  | Deprecated
  | RuntimeVisibleAnnotations (annotations : List RuntimeAnnotationItem)
  | RuntimeInvisibleAnnotations (annotations : List RuntimeAnnotationItem)
  | RuntimeVisibleParameterAnnotations (params : List (List RuntimeAnnotationItem))
  | RuntimeInvisibleParameterAnnotations (params : List (List RuntimeAnnotationItem))
  | AnnotationDefault (default_value : RuntimeAnnotationValue)
  | BootstrapMethods (methods : List BootstrapMethodsMethod)
  | NestMembers (classes : List CPClassRef)
  | NestHost (r : CPClassRef)
  | MethodParameters (parameters : List MethodParametersParam)
  | Record (components : List RecordComponentInfo)
  | PermittedSubclasses (classes : List CPClassRef)
  | RuntimeVisibleTypeAnnotations (annotations : List RuntimeTypeAnnotationItem)
  | RuntimeInvisibleTypeAnnotations (annotations : List RuntimeTypeAnnotationItem)
  | Module (module_name : CPModuleInfoRef) (module_flags : Nat)
      (module_version : Option CPUtf8Ref)
      (requires : List ModuleRequiresEntry) (exports : List ModuleExportsEntry)
      (opens : List ModuleOpensEntry) (uses : List CPClassRef)
      (provides : List ModuleProvidesEntry)
  | ModulePackages (packages : List CPPackageInfoRef)
  | ModuleMainClass (cls : CPClassRef)
end

/-! ## The attribute decoder (attribute.rs): readers -/

/-- Embeds `VerificationTypeInfo::read` (attribute.rs:40).  The catch-all
arm of the source is `unreachable!("invalid tag ..")`: an abort. -/
def VerificationTypeInfo.read : ParseM VerificationTypeInfo := do
  let tag ← readU8
  match tag with
  | 0 => pure .TopVariableInfo
  | 1 => pure .IntegerVariableInfo
  | 2 => pure .FloatVariableInfo
  | 4 => pure .LongVariableInfo
  | 3 => pure .DoubleVariableInfo
  | 5 => pure .NullVariableInfo
  | 6 => pure .UninitializedThisVariableInfo
  | 7 => do
      let cpool_idx ← readU16
      pure (.ObjectVariableInfo cpool_idx)
  | 8 => do
      let offset ← readU16
      pure (.UninitializedVariableInfo offset)
  | _ => panicM "invalid tag"

/-- Embeds `StackMapFrame::new` (attribute.rs:109).  The tag ranges of the
source's match are rendered as an if-chain in the same order; the
catch-all (tags 128-246) is `panic!("invalid frame tag ..")`. -/
def StackMapFrame.new : ParseM StackMapFrame := do
  let frame_type ← readU8
  if frame_type ≤ 63 then
    pure (.SameFrame frame_type frame_type)
  else if frame_type ≤ 127 then do
    let stack ← VerificationTypeInfo.read
    pure (.SameLocals1StackItemFrame frame_type (frame_type - 64) stack)
  else if frame_type = 247 then do
    let offset_delta ← readU16
    let stack ← VerificationTypeInfo.read
    pure (.SameLocals1StackItemFrameExtended frame_type offset_delta stack)
  else if 248 ≤ frame_type ∧ frame_type ≤ 250 then do
    let offset_delta ← readU16
    pure (.ChopFrame frame_type offset_delta)
  else if frame_type = 251 then do
    let offset_delta ← readU16
    pure (.SameFrameExtended frame_type offset_delta)
  else if 252 ≤ frame_type ∧ frame_type ≤ 254 then do
    let offset_delta ← readU16
    let locals ← forN (frame_type - 251) VerificationTypeInfo.read
    pure (.AppendFrame frame_type offset_delta locals)
  else if frame_type = 255 then do
    let offset_delta ← readU16
    let n_locals ← readU16
    let locals ← forN n_locals VerificationTypeInfo.read
    let n_stack ← readU16
    let stack ← forN n_stack VerificationTypeInfo.read
    pure (.FullFrame frame_type offset_delta locals stack)
  else
    panicM "invalid frame tag"

/-- Helper for the recurring source pattern
`if idx == 0 { None } else { Some(resolve?) }` (index 0 marks an absent
optional reference): run `p` only when the index is non-zero. -/
def optParse {α : Type} (idx : Nat) (p : ParseM α) : ParseM (Option α) :=
  if idx = 0 then ParseM.pure none else do
    let r ← p
    pure (some r)

/-- Helper for the recurring source pattern
`match opt { None => None, Some(x) => Some(resolve(x)?) }`: run `f` on the
payload when present. -/
def optMatch {α β : Type} (o : Option α) (f : α → ParseM β) : ParseM (Option β) :=
  match o with
  | none => ParseM.pure none
  | some a => do
      let r ← f a
      pure (some r)

/-- Embeds `InnerClassesAttributeClass::new` (attribute.rs:186): four
reads, then the pool lookups in source order (the optional-index steps are
factored through `optParse`/`optMatch`). -/
def InnerClassesAttributeClass.new (cp : List IRCpTag) :
    ParseM InnerClassesAttributeClass := do
  let inner_info_idx ← readU16
  let outer_info_idx ← readU16
  let inner_name_idx ← readU16
  let inner_class_access_flags ← readU16
  let inner_info_tag ← liftO (cpGetOneBased cp inner_info_idx "expected class")
  let outer_info_tag ← optParse outer_info_idx
    (liftO (cpGetOneBased cp outer_info_idx "expected class"))
  let inner_name_tag ← optParse inner_name_idx
    (liftO (cpGetOneBased cp inner_name_idx "expected utf8"))
  let inner_class_info ← liftO (CPClassRef.new inner_info_idx inner_info_tag)
  let outer_class_info ← optMatch outer_info_tag fun tag =>
    liftO (CPClassRef.new outer_info_idx tag)
  let inner_name ← optMatch inner_name_tag fun tag =>
    liftO (CPUtf8Ref.new inner_name_idx tag)
  pure ⟨inner_class_info, outer_class_info, inner_name, inner_class_access_flags⟩

/-- Embeds `CodeAttributeException::new` (attribute.rs:227). -/
def CodeAttributeException.new : ParseM CodeAttributeException := do
  let start_pc ← readU16
  let end_pc ← readU16
  let handler_pc ← readU16
  let catch_type ← readU16
  pure ⟨start_pc, end_pc, handler_pc, catch_type⟩

/-- Embeds `LineNumberTableAttribute::new` (attribute.rs:289). -/
def LineNumberTableAttribute.new : ParseM LineNumberTableAttribute := do
  let table_len ← readU16
  let line_number_table ← forN table_len (do
    let start_pc ← readU16
    let line_number ← readU16
    pure (⟨start_pc, line_number⟩ : LineNumberTableAttributeEntry))
  pure ⟨line_number_table⟩

/-- Embeds `MethodParametersParam::new` (attribute.rs:311): the name
field (and its possible abort) is evaluated before the flags read, as in
the source's struct literal. -/
def MethodParametersParam.new (cp : List IRCpTag) : ParseM MethodParametersParam := do
  let name_index ← readU16
  let name ← optParse name_index (do
      let tag ← liftO (cpGetOneBased cp name_index "expected utf8")
      liftO (CPUtf8Ref.new name_index tag))
  let access_flags ← readU16
  pure ⟨name, access_flags⟩

/-! Embeds `RuntimeAnnotationValue::new` and `RuntimeAnnotation::new`
(attribute.rs:343, 385), mutually recursive through nested annotations
and array elements; `fuel` bounds the nesting depth (in the source the
depth is bounded by the input length). -/
mutual
def RuntimeAnnotationValue.new (fuel : Nat) (cp : List IRCpTag) :
    ParseM RuntimeAnnotationValue :=
  match fuel with
  | 0 => panicM "recursion limit"
  | f + 1 => do
      let tag ← readU8
      match tag with
      | 66 | 67 | 68 | 70 | 73 | 74 | 83 | 90 | 115 => do
          -- b'B' | b'C' | b'D' | b'F' | b'I' | b'J' | b'S' | b'Z' | b's'
          let idx ← readU16
          let r ← liftO (CPConstValueRef.from_cp cp idx)
          pure (.ConstValueIndex r)
      | 101 => do   -- b'e'
          let t₁ ← readU16
          let type_name ← liftO (CPUtf8Ref.from_cp cp t₁)
          let t₂ ← readU16
          let const_name ← liftO (CPUtf8Ref.from_cp cp t₂)
          pure (.EnumConstValue type_name const_name)
      | 99 => do    -- b'c'
          let idx ← readU16
          let r ← liftO (CPUtf8Ref.from_cp cp idx)
          pure (.ClassInfoIndex r)
      | 64 => do    -- b'@'
          let a ← RuntimeAnnotationItem.new f cp
          pure (.Annot a)
      | 91 => do    -- b'['
          let n_values ← readU16
          let values ← forN n_values (RuntimeAnnotationValue.new f cp)
          pure (.ArrayValue values)
      | _ => panicM "invalid tag"

def RuntimeAnnotationItem.new (fuel : Nat) (cp : List IRCpTag) :
    ParseM RuntimeAnnotationItem :=
  match fuel with
  | 0 => panicM "recursion limit"
  | f + 1 => do
      let ty_idx ← readU16
      let ty_tag ← liftO (cpGetOneBased cp ty_idx "expected utf8")
      let ty ← liftO (CPUtf8Ref.new ty_idx ty_tag)
      let n_pairs ← readU16
      let pairs ← forN n_pairs (do
        let name_idx ← readU16
        let name_tag ← liftO (cpGetOneBased cp name_idx "expected utf8")
        let name ← liftO (CPUtf8Ref.new name_idx name_tag)
        let value ← RuntimeAnnotationValue.new f cp
        pure (.mk name value : RuntimeAnnotationEVPair))
      pure (.mk ty pairs)
end

/-- Embeds the `target_info` match of `RuntimeTypeAnnotation::new`
(attribute.rs:570), factored out of the surrounding reader; the catch-all
for an unexpected `target_type` is `panic!`. -/
def RuntimeTypeAnnotationTargetInfo.read (target_type : Nat) :
    ParseM RuntimeTypeAnnotationTargetInfo :=
  match target_type with
    | 0x0 | 0x01 => do
        let type_param_index ← readU8
        pure (RuntimeTypeAnnotationTargetInfo.TypeParameterTarget type_param_index)
    | 0x10 => do
        let supertype_index ← readU16
        pure (RuntimeTypeAnnotationTargetInfo.SupertypeTarget supertype_index)
    | 0x11 | 0x12 => do
        let type_param_index ← readU8
        let bound_index ← readU8
        pure (RuntimeTypeAnnotationTargetInfo.TypeParameterBoundTarget
          type_param_index bound_index)
    | 0x13 | 0x14 | 0x15 => pure RuntimeTypeAnnotationTargetInfo.EmptyTarget
    | 0x16 => do
        let formal_param_index ← readU8
        pure (RuntimeTypeAnnotationTargetInfo.FormalParameterTarget formal_param_index)
    | 0x17 => do
        let throws_type_index ← readU16
        pure (RuntimeTypeAnnotationTargetInfo.ThrowsTarget throws_type_index)
    | 0x40 | 0x41 => do
        let n_entries ← readU16
        let table ← forN n_entries (do
          let start_pc ← readU16
          let length ← readU16
          let index ← readU16
          pure (⟨start_pc, length, index⟩ : RuntimeTypeAnnotationLocalVarTargetTableEntry))
        pure (RuntimeTypeAnnotationTargetInfo.LocalvarTarget table)
    | 0x42 => do
        let exception_table_index ← readU16
        pure (RuntimeTypeAnnotationTargetInfo.CatchTarget exception_table_index)
    | 0x43 | 0x44 | 0x45 => do
        let offset ← readU16
        pure (RuntimeTypeAnnotationTargetInfo.OffsetTarget offset)
    | 0x47 | 0x48 | 0x49 | 0x4A | 0x4B => do
        let offset ← readU16
        let type_argument_index ← readU8
        pure (RuntimeTypeAnnotationTargetInfo.TypeArgumentTarget offset type_argument_index)
    | _ => panicM "unexpected target_type"

/-- Embeds `RuntimeTypeAnnotation::new` (attribute.rs:566); the
`target_info` match is the factored reader above. -/
def RuntimeTypeAnnotationItem.new (fuel : Nat) (cp : List IRCpTag) :
    ParseM RuntimeTypeAnnotationItem := do
  let target_type ← readU8
  let target_info ← RuntimeTypeAnnotationTargetInfo.read target_type
  let n_parts ← readU8
  let target_path ← forN n_parts (do
    let type_path_kind ← readU8
    let type_argument_kind ← readU8
    pure (⟨type_path_kind, type_argument_kind⟩ : RuntimeTypeAnnotationTypePathPart))
  let type_index ← readU16
  let n_pairs ← readU16
  let pairs ← forN n_pairs (do
    let name_idx ← readU16
    let name_tag ← liftO (cpGetOneBased cp name_idx "expected utf8")
    let name ← liftO (CPUtf8Ref.new name_idx name_tag)
    let value ← RuntimeAnnotationValue.new fuel cp
    pure (.mk name value : RuntimeAnnotationEVPair))
  pure ⟨target_type, target_info, target_path, type_index, pairs⟩

/-- Embeds `RecordComponentInfo`'s sibling `BootstrapMethodsMethod::new`
(attribute.rs:438): reads first, lookups after the loop, in source
order. -/
def BootstrapMethodsMethod.new (cp : List IRCpTag) : ParseM BootstrapMethodsMethod := do
  let method_idx ← readU16
  let n_args ← readU16
  let arguments ← forN n_args readU16
  let method ← liftO (CPMethodHandleRef.from_cp cp method_idx)
  let argumentRefs ← arguments.foldr
    (fun idx acc => do
      let r ← liftO (CPTagRef.from_cp cp idx)
      let rest ← acc
      pure (r :: rest))
    (pure [])
  pure ⟨method, argumentRefs⟩

/-- Embeds `LocalVariableTableEntry::new` (attribute.rs:464). -/
def LocalVariableTableEntry.new (cp : List IRCpTag) : ParseM LocalVariableTableEntry := do
  let start_pc ← readU16
  let length ← readU16
  let name_idx ← readU16
  let descriptor_idx ← readU16
  let index ← readU16
  let name ← liftO (CPUtf8Ref.from_cp cp name_idx)
  let descriptor ← liftO (CPUtf8Ref.from_cp cp descriptor_idx)
  pure ⟨start_pc, length, name, descriptor, index⟩

/-- Embeds `LocalVariableTypeTableEntry::new` (attribute.rs:491). -/
def LocalVariableTypeTableEntry.new (cp : List IRCpTag) :
    ParseM LocalVariableTypeTableEntry := do
  let start_pc ← readU16
  let length ← readU16
  let name_idx ← readU16
  let signature_idx ← readU16
  let index ← readU16
  let name ← liftO (CPUtf8Ref.from_cp cp name_idx)
  let signature ← liftO (CPUtf8Ref.from_cp cp signature_idx)
  pure ⟨start_pc, length, name, signature, index⟩

/-- Embeds `ModuleRequiresEntry::new` (attribute.rs:660). -/
def ModuleRequiresEntry.new (cp : List IRCpTag) : ParseM ModuleRequiresEntry := do
  let module_idx ← readU16
  let flags ← readU16
  let version_idx ← readU16
  let module ← liftO (CPModuleInfoRef.from_cp cp module_idx)
  let version ← optParse version_idx (liftO (CPUtf8Ref.from_cp cp version_idx))
  pure ⟨module, flags, version⟩

/-- Embeds `ModuleExportsEntry::new` (attribute.rs:685). -/
def ModuleExportsEntry.new (cp : List IRCpTag) : ParseM ModuleExportsEntry := do
  let package_idx ← readU16
  let flags ← readU16
  let n_exports ← readU16
  let exports ← forN n_exports (do
    let idx ← readU16
    liftO (CPModuleInfoRef.from_cp cp idx))
  let package ← liftO (CPPackageInfoRef.from_cp cp package_idx)
  pure ⟨package, flags, exports⟩

/-- Embeds `ModuleOpensEntry::new` (attribute.rs:712). -/
def ModuleOpensEntry.new (cp : List IRCpTag) : ParseM ModuleOpensEntry := do
  let package_idx ← readU16
  let flags ← readU16
  let n_opens ← readU16
  let opens ← forN n_opens (do
    let idx ← readU16
    liftO (CPModuleInfoRef.from_cp cp idx))
  let package ← liftO (CPPackageInfoRef.from_cp cp package_idx)
  pure ⟨package, flags, opens⟩

/-- Embeds `ModuleProvidesEntry::new` (attribute.rs:739). -/
def ModuleProvidesEntry.new (cp : List IRCpTag) : ParseM ModuleProvidesEntry := do
  let package_idx ← readU16
  let flags ← readU16
  let n_provides ← readU16
  let provides ← forN n_provides (do
    let idx ← readU16
    liftO (CPClassRef.from_cp cp idx))
  let cls ← liftO (CPClassRef.from_cp cp package_idx)
  pure ⟨cls, flags, provides⟩

/-- Modelled from the spec: `String::from_utf8` (std, outside the
sources).  Conservatively exact on ASCII, failing on anything else (the
`Utf8Conv` typed error); nothing proved here depends on multi-byte
acceptance. -/
def stringFromUtf8 (bytes : List Nat) : Outcome String :=
  if bytes.all (fun b => b ≤ 127) then
    .ok (String.mk (bytes.map Char.ofNat))
  else
    .error .Utf8Conv

/-! Embeds `IRAttribute::new` (attribute.rs:865), `CodeAttribute::new`
(attribute.rs:247), `RecordComponentInfo::new` (attribute.rs:414) and
`IRAttributeInfo::from_io` (attribute.rs:766), mutually recursive through
nested attribute lists.  `fuel` bounds the nesting depth (each nesting
level consumes several bytes of the enclosing blob in the source, so the
source's recursion is bounded by input length); every positive theorem
holds for all fuels, and one unit of fuel is consumed at each hop of the
`new → CodeAttribute/Record → from_io → new` cycle. -/
mutual
/-- Embeds `IRAttribute::new`: dispatch on the resolved name string, in
source order; unrecognized names abort (`panic!("unparsed attribute ..")`).
Note the `Exceptions` branch indexes the pool with `cp.get(idx)` — no
1-based translation — exactly as the source does (attribute.rs:905). -/
def IRAttribute.new (fuel : Nat) (name : CPUtf8Ref) (cp : List IRCpTag) :
    ParseM IRAttribute :=
  match fuel with
  | 0 => panicM "recursion limit"
  | f + 1 =>
    match name.data with
    | "ConstantValue" => do
        let cp_idx ← readU16
        let tag ← liftO (cpGetOneBased cp cp_idx "invalid index fuck u")
        match tag with
        | .Integer value => pure (.ConstantValue (.Int cp_idx value))
        | .Float bits => pure (.ConstantValue (.Float cp_idx bits))
        | .Long value => pure (.ConstantValue (.Long cp_idx value))
        | .Double bits => pure (.ConstantValue (.Double cp_idx bits))
        | .String r => pure (.ConstantValue (.String r))
        | _ => panicM "didnt expect tag"
    | "Code" => do
        let c ← CodeAttribute.new f cp
        pure (.Code c)
    | "StackMapTable" => do
        let n_entries ← readU16
        let entries ← forN n_entries StackMapFrame.new
        pure (.StackMapTable ⟨entries⟩)
    | "Exceptions" => do
        let n_exceptions ← readU16
        let exception_index_table ← forN n_exceptions (do
          let idx ← readU16
          -- source: cp.get(idx as usize).expect("expected utf8") — not idx - 1
          let tag ← liftO (match cp[idx]? with
            | some t => Outcome.ok t
            | none => Outcome.panicked "expected utf8")
          liftO (CPUtf8Ref.new idx tag))
        pure (.Exceptions exception_index_table)
    | "LineNumberTable" => do
        let v ← LineNumberTableAttribute.new
        pure (.LineNumberTable v)
    | "SourceFile" => do
        let index ← readU16
        let tag ← liftO (cpGetOneBased cp index "expected utf8")
        let r ← liftO (CPUtf8Ref.new index tag)
        pure (.SourceFile r)
    | "NestMembers" => do
        let n_classes ← readU16
        let classes ← forN n_classes (do
          let index ← readU16
          let tag ← liftO (cpGetOneBased cp index "expected class")
          liftO (CPClassRef.new index tag))
        pure (.NestMembers classes)
    | "InnerClasses" => do
        let n_classes ← readU16
        let classes ← forN n_classes (InnerClassesAttributeClass.new cp)
        pure (.InnerClasses ⟨classes⟩)
    | "Synthetic" => pure .Synthetic
    | "Signature" => do
        let idx ← readU16
        let tag ← liftO (cpGetOneBased cp idx "expected utf8")
        let r ← liftO (CPUtf8Ref.new idx tag)
        pure (.Signature r)
    | "NestHost" => do
        let idx ← readU16
        let tag ← liftO (cpGetOneBased cp idx "expected class")
        let r ← liftO (CPClassRef.new idx tag)
        pure (.NestHost r)
    | "MethodParameters" => do
        let n_params ← readU8
        let parameters ← forN n_params (MethodParametersParam.new cp)
        pure (.MethodParameters parameters)
    | "Deprecated" => pure .Deprecated
    | "RuntimeVisibleAnnotations" => do
        let n_annotations ← readU16
        let annotations ← forN n_annotations (RuntimeAnnotationItem.new f cp)
        pure (.RuntimeVisibleAnnotations annotations)
    | "RuntimeInvisibleAnnotations" => do
        let n_annotations ← readU16
        let annotations ← forN n_annotations (RuntimeAnnotationItem.new f cp)
        pure (.RuntimeInvisibleAnnotations annotations)
    | "RuntimeVisibleParameterAnnotations" => do
        let n_params ← readU8
        let params ← forN n_params (do
          let n_annotations ← readU16
          forN n_annotations (RuntimeAnnotationItem.new f cp))
        pure (.RuntimeVisibleParameterAnnotations params)
    | "RuntimeInvisibleParameterAnnotations" => do
        let n_params ← readU8
        let params ← forN n_params (do
          let n_annotations ← readU16
          forN n_annotations (RuntimeAnnotationItem.new f cp))
        pure (.RuntimeInvisibleParameterAnnotations params)
    | "Record" => do
        let n_components ← readU16
        let components ← forN n_components (RecordComponentInfo.new f cp)
        pure (.Record components)
    | "BootstrapMethods" => do
        let n_methods ← readU16
        let methods ← forN n_methods (BootstrapMethodsMethod.new cp)
        pure (.BootstrapMethods methods)
    | "PermittedSubclasses" => do
        let n_classes ← readU16
        let classes ← forN n_classes (do
          let idx ← readU16
          liftO (CPClassRef.from_cp cp idx))
        pure (.PermittedSubclasses classes)
    | "SourceDebugExtension" => do
        let bytes ← readToEnd
        let s ← liftO (stringFromUtf8 bytes)
        pure (.SourceDebugExtension s)
    | "LocalVariableTable" => do
        let n_entries ← readU16
        let table ← forN n_entries (LocalVariableTableEntry.new cp)
        pure (.LocalVariableTable table)
    | "LocalVariableTypeTable" => do
        let n_entries ← readU16
        let table ← forN n_entries (LocalVariableTypeTableEntry.new cp)
        pure (.LocalVariableTypeTable table)
    | "EnclosingMethod" => do
        let class_idx ← readU16
        let method_idx ← readU16
        let cls ← liftO (CPClassRef.from_cp cp class_idx)
        let method ← optParse method_idx
          (liftO (CPNameAndTypeRef.from_cp cp method_idx))
        pure (.EnclosingMethod cls method)
    | "RuntimeVisibleTypeAnnotations" => do
        let n_annotations ← readU16
        let annotations ← forN n_annotations (RuntimeTypeAnnotationItem.new f cp)
        pure (.RuntimeVisibleTypeAnnotations annotations)
    | "RuntimeInvisibleTypeAnnotations" => do
        let n_annotations ← readU16
        let annotations ← forN n_annotations (RuntimeTypeAnnotationItem.new f cp)
        pure (.RuntimeInvisibleTypeAnnotations annotations)
    | "AnnotationDefault" => do
        let default_value ← RuntimeAnnotationValue.new f cp
        pure (.AnnotationDefault default_value)
    | "Module" => do
        let module_name_idx ← readU16
        let module_flags ← readU16
        let module_version_idx ← readU16
        let n_requires ← readU16
        let requires ← forN n_requires (ModuleRequiresEntry.new cp)
        let n_exports ← readU16
        let exports ← forN n_exports (ModuleExportsEntry.new cp)
        let n_opens ← readU16
        let opens ← forN n_opens (ModuleOpensEntry.new cp)
        let n_uses ← readU16
        let uses ← forN n_uses (do
          let idx ← readU16
          liftO (CPClassRef.from_cp cp idx))
        let n_provides ← readU16
        let provides ← forN n_provides (ModuleProvidesEntry.new cp)
        let module_name ← liftO (CPModuleInfoRef.from_cp cp module_name_idx)
        let module_version ← optParse module_version_idx
          (liftO (CPUtf8Ref.from_cp cp module_version_idx))
        pure (.Module module_name module_flags module_version requires exports
          opens uses provides)
    | "ModulePackages" => do
        let n_packages ← readU16
        let packages ← forN n_packages (do
          let idx ← readU16
          liftO (CPPackageInfoRef.from_cp cp idx))
        pure (.ModulePackages packages)
    | "ModuleMainClass" => do
        let idx ← readU16
        let cls ← liftO (CPClassRef.from_cp cp idx)
        pure (.ModuleMainClass cls)
    | _ => panicM "unparsed attribute"

/-- Embeds `CodeAttribute::new` (attribute.rs:247): the code region is
read as raw bytes (it is *not* handed to `Instructions::read` here), the
exception table has no pool resolution, and the nested attribute list
recurses through `IRAttributeInfo::from_io` on a fresh cursor over each
nested blob. -/
def CodeAttribute.new (fuel : Nat) (cp : List IRCpTag) : ParseM CodeAttribute :=
  match fuel with
  | 0 => panicM "recursion limit"
  | f + 1 => do
      let max_stack ← readU16
      let max_locals ← readU16
      let code_len ← readU32
      let code ← forN code_len readU8
      let exception_table_len ← readU16
      let exception_table ← forN exception_table_len CodeAttributeException.new
      let attribute_len ← readU16
      let attributes ← forN attribute_len (do
        let raw ← IOAttributeInfo.read
        liftO (IRAttributeInfo.fromIoAttr f cp raw))
      pure (.mk max_stack max_locals code exception_table attributes)

/-- Embeds `RecordComponentInfo::new` (attribute.rs:414). -/
def RecordComponentInfo.new (fuel : Nat) (cp : List IRCpTag) :
    ParseM RecordComponentInfo :=
  match fuel with
  | 0 => panicM "recursion limit"
  | f + 1 => do
      let name_idx ← readU16
      let descriptor_idx ← readU16
      let n_attributes ← readU16
      let attributes ← forN n_attributes (do
        let raw ← IOAttributeInfo.read
        liftO (IRAttributeInfo.fromIoAttr f cp raw))
      let name ← liftO (CPUtf8Ref.from_cp cp name_idx)
      let descriptor ← liftO (CPUtf8Ref.from_cp cp descriptor_idx)
      pure (.mk name descriptor attributes)

/-- Embeds `IRAttributeInfo::from_io` (attribute.rs:766): resolve the
attribute's name from the pool, then decode the body on a fresh cursor
over the record's byte blob (the final cursor position is not checked
against the declared length, as in the source). -/
def IRAttributeInfo.fromIoAttr (fuel : Nat) (cp : List IRCpTag)
    (raw : IOAttributeInfo) : Outcome IRAttributeInfo :=
  match fuel with
  | 0 => .panicked "recursion limit"
  | f + 1 =>
      Outcome.bind (cpGetOneBased cp raw.attribute_name_index "invalid index")
        fun name_tag =>
      Outcome.bind (CPUtf8Ref.new raw.attribute_name_index name_tag) fun name =>
      match IRAttribute.new f name cp raw.info 0 with
      | .ok (attr, _) => .ok (.mk name raw.attribute_length attr)
      | .error e => .error e
      | .panicked m => .panicked m
end

theorem attrNew_sourcefile_eval :
    IRAttribute.new 1 ⟨"SourceFile", 7⟩ [.Utf8 "x"] [0, 1] 0 =
      .ok (.SourceFile ⟨"x", 1⟩, 2) := rfl

theorem attrNew_sourcefile_short_eval :
    IRAttribute.new 1 ⟨"SourceFile", 7⟩ [.Utf8 "x"] [0] 0 =
      .error .Truncated := rfl

/-- C2.  The `Exceptions` branch of the attribute decoder accesses the
pool without the 1-based-to-0-based decrement (`cp.get(idx)`,
attribute.rs:905), unlike every other access path: on the pool
`[Utf8 "A", Utf8 "B"]`, an `Exceptions` attribute naming external index 1
resolves to pool entry #2 (`"B"`) instead of entry #1 (`"A"`); and on the
single-entry pool `[Utf8 "A"]` the same valid index 1 aborts, because the
undecremented access runs off the end of the pool. -/
theorem c2_exceptions_index_not_decremented :
    IRAttribute.new 1 ⟨"Exceptions", 3⟩ [.Utf8 "A", .Utf8 "B"] [0, 1, 0, 1] 0 =
      .ok (.Exceptions [⟨"B", 1⟩], 4) ∧
    IRAttribute.new 1 ⟨"Exceptions", 3⟩ [.Utf8 "A"] [0, 1, 0, 1] 0 =
      .panicked "expected utf8" :=
  ⟨rfl, rfl⟩

theorem ParseM.bind_ok_apply {α β : Type} {p : ParseM α} {f : α → ParseM β}
    {bs : List Nat} {pos : Nat} {a : α} {pos₁ : Nat}
    (h : p bs pos = .ok (a, pos₁)) :
    ParseM.bind p f bs pos = f a bs pos₁ := by
  rw [ParseM.bind_apply, h]

/-- C8.  A StackMapTable frame whose leading tag byte `t` lies in
`64..=127` decodes to `SameLocals1StackItemFrame` with
`offset_delta = t - 64` (so tag `0x40` gives offset 0), followed by
exactly one verification-type entry read from the following bytes. -/
theorem c8_same_locals_frame (bs : List Nat) (pos t : Nat)
    (hb : bs.get? pos = some t) (h64 : 64 ≤ t) (h127 : t ≤ 127)
    (v : VerificationTypeInfo) (p₂ : Nat)
    (hv : VerificationTypeInfo.read bs (pos + 1) = .ok (v, p₂)) :
    StackMapFrame.new bs pos =
      .ok (.SameLocals1StackItemFrame t (t - 64) v, p₂) := by
  have h1 : readU8 bs pos = .ok (t, pos + 1) := by
    unfold readU8; rw [hb]
  unfold StackMapFrame.new
  rw [ParseM.parsem_bind_def, ParseM.bind_ok_apply h1]
  simp only [if_neg (by omega : ¬ t ≤ 63), if_pos h127]
  rw [ParseM.parsem_bind_def, ParseM.bind_ok_apply hv]
  rfl

/-- C8, witness: frame bytes `0x40 0x01`: tag `0x40`, offset delta 0, one
verification-type entry (`IntegerVariableInfo`), two bytes consumed. -/
theorem c8_same_locals_frame_witness :
    StackMapFrame.new [64, 1] 0 =
      .ok (.SameLocals1StackItemFrame 64 0 .IntegerVariableInfo, 2) :=
  c8_same_locals_frame [64, 1] 0 64 rfl (by decide) (by decide)
    .IntegerVariableInfo 2 rfl

/-! ## Sequential parsers and truncation

`SeqOk p` captures that `p` reads its input strictly left to right with
no lookahead or seeking: a successful run advances the position, depends
only on the bytes before its final position, and fails with the
`Truncated` error on every strict prefix of what it consumed.  All the
byte-cursor primitives except `read_to_vec` are sequential, and
sequentiality is closed under the combinators, so every attribute decoder
branch except `SourceDebugExtension` (whose layout is, by definition, the
whole remaining body) is sequential. -/

def SeqOk {α : Type} (p : ParseM α) : Prop :=
  ∀ bs pos a pos₂, p bs pos = .ok (a, pos₂) →
    pos ≤ pos₂ ∧
    (∀ m, pos₂ ≤ m → p (bs.take m) pos = .ok (a, pos₂)) ∧
    (∀ m, pos ≤ m → m < pos₂ → p (bs.take m) pos = .error .Truncated)

theorem seqok_pure {α : Type} (a : α) : SeqOk (ParseM.pure a) := by
  intro bs pos b pos₂ h
  rw [ParseM.pure_apply] at h
  obtain ⟨rfl, rfl⟩ : b = a ∧ pos₂ = pos := by
    constructor <;> [skip; skip] <;> cases h <;> rfl
  exact ⟨le_refl _, fun m _ => rfl, fun m h₁ h₂ => absurd (lt_of_le_of_lt h₁ h₂)
    (lt_irrefl _)⟩

theorem seqok_liftO {α : Type} (o : Outcome α) : SeqOk (liftO o) := by
  intro bs pos a pos₂ h
  cases o with
  | ok v =>
      obtain ⟨rfl, rfl⟩ : a = v ∧ pos₂ = pos := by
        constructor <;> cases h <;> rfl
      exact ⟨le_refl _, fun m _ => rfl,
        fun m h₁ h₂ => absurd (lt_of_le_of_lt h₁ h₂) (lt_irrefl _)⟩
  | error e => simp [liftO] at h
  | panicked m => simp [liftO] at h

theorem seqok_panicM {α : Type} (msg : String) : SeqOk (panicM (α := α) msg) := by
  intro bs pos a pos₂ h
  simp [panicM, liftO] at h

theorem List.take_get?_lt {α : Type} (l : List α) (m i : Nat) (h : i < m) :
    (l.take m).get? i = l.get? i := by
  rw [List.get?_eq_getElem?, List.get?_eq_getElem?, List.getElem?_take, if_pos h]

theorem seqok_readU8 : SeqOk readU8 := by
  intro bs pos a pos₂ h
  unfold readU8 at h ⊢
  cases hb : bs.get? pos with
  | none => rw [hb] at h; simp at h
  | some b =>
      rw [hb] at h
      obtain ⟨rfl, rfl⟩ : a = b ∧ pos₂ = pos + 1 := by
        constructor <;> cases h <;> rfl
      have hlt : pos < bs.length := by
        by_contra hge
        rw [List.get?_eq_getElem?, List.getElem?_eq_none (Nat.le_of_not_lt hge)] at hb
        simp at hb
      refine ⟨Nat.le_succ _, ?_, ?_⟩
      · intro m hm
        rw [List.take_get?_lt bs m pos (by omega), hb]
      · intro m h₁ h₂
        have hm : pos = m := by omega
        subst hm
        have : (bs.take pos).get? pos = none := by
          rw [List.get?_eq_getElem?]
          exact List.getElem?_eq_none (by rw [List.length_take]; omega)
        rw [this]

theorem seqok_bind {α β : Type} {p : ParseM α} {f : α → ParseM β}
    (hp : SeqOk p) (hf : ∀ a, SeqOk (f a)) : SeqOk (ParseM.bind p f) := by
  intro bs pos b pos₂ h
  rw [ParseM.bind_apply] at h
  cases hq : p bs pos with
  | ok ap =>
      obtain ⟨a, pos₁⟩ := ap
      rw [hq] at h
      replace h : f a bs pos₁ = .ok (b, pos₂) := h
      obtain ⟨hle₁, hstab₁, htr₁⟩ := hp bs pos a pos₁ hq
      obtain ⟨hle₂, hstab₂, htr₂⟩ := hf a bs pos₁ b pos₂ h
      refine ⟨le_trans hle₁ hle₂, ?_, ?_⟩
      · intro m hm
        rw [ParseM.bind_apply, hstab₁ m (le_trans hle₂ hm)]
        exact hstab₂ m hm
      · intro m hm₁ hm₂
        rw [ParseM.bind_apply]
        by_cases hc : m < pos₁
        · rw [htr₁ m hm₁ hc]
        · rw [hstab₁ m (Nat.le_of_not_lt hc)]
          exact htr₂ m (Nat.le_of_not_lt hc) hm₂
  | error e => rw [hq] at h; simp at h
  | panicked msg => rw [hq] at h; simp at h

theorem seqok_monad_bind {α β : Type} {p : ParseM α} {f : α → ParseM β}
    (hp : SeqOk p) (hf : ∀ a, SeqOk (f a)) : SeqOk (p >>= f) :=
  seqok_bind hp hf

theorem seqok_forN {α : Type} {p : ParseM α} (hp : SeqOk p) :
    ∀ n : Nat, SeqOk (forN n p) := by
  intro n
  induction n with
  | zero => exact seqok_pure []
  | succ k ih =>
      show SeqOk (ParseM.bind p fun a => ParseM.bind (forN k p)
        fun rest => ParseM.pure (a :: rest))
      exact seqok_bind hp fun a => seqok_bind ih fun rest => seqok_pure _

theorem seqok_readU16 : SeqOk readU16 := by
  unfold readU16
  exact seqok_bind seqok_readU8 fun hi => seqok_bind seqok_readU8
    fun lo => seqok_pure _

theorem seqok_readU32 : SeqOk readU32 := by
  unfold readU32
  exact seqok_bind seqok_readU16 fun b₁ => seqok_bind seqok_readU16
    fun b₂ => seqok_pure _

theorem seqok_readBytes (n : Nat) : SeqOk (readBytes n) :=
  seqok_forN seqok_readU8 n

theorem seqok_vti : SeqOk VerificationTypeInfo.read := by
  unfold VerificationTypeInfo.read
  refine seqok_bind seqok_readU8 fun tag => ?_
  split
  all_goals first
    | exact seqok_pure _
    | exact seqok_bind seqok_readU16 fun x => seqok_pure _
    | exact seqok_panicM _

theorem seqok_smf : SeqOk StackMapFrame.new := by
  unfold StackMapFrame.new
  refine seqok_bind seqok_readU8 fun t => ?_
  split
  · exact seqok_pure _
  · split
    · exact seqok_bind seqok_vti fun stack => seqok_pure _
    · split
      · exact seqok_bind seqok_readU16 fun od =>
          seqok_bind seqok_vti fun stack => seqok_pure _
      · split
        · exact seqok_bind seqok_readU16 fun od => seqok_pure _
        · split
          · exact seqok_bind seqok_readU16 fun od => seqok_pure _
          · split
            · exact seqok_bind seqok_readU16 fun od =>
                seqok_bind (seqok_forN seqok_vti _) fun locals => seqok_pure _
            · split
              · exact seqok_bind seqok_readU16 fun od =>
                  seqok_bind seqok_readU16 fun nl =>
                  seqok_bind (seqok_forN seqok_vti nl) fun locals =>
                  seqok_bind seqok_readU16 fun ns =>
                  seqok_bind (seqok_forN seqok_vti ns) fun stack => seqok_pure _
              · exact seqok_panicM _

theorem seqok_optParse {α : Type} (idx : Nat) {p : ParseM α} (hp : SeqOk p) :
    SeqOk (optParse idx p) := by
  unfold optParse
  split
  · exact seqok_pure _
  · exact seqok_bind hp fun r => seqok_pure _

theorem seqok_optMatch {α β : Type} (o : Option α) {f : α → ParseM β}
    (hf : ∀ a, SeqOk (f a)) : SeqOk (optMatch o f) := by
  cases o with
  | none => exact seqok_pure _
  | some a => exact seqok_bind (hf a) fun r => seqok_pure _

theorem seqok_innerCls (cp : List IRCpTag) :
    SeqOk (InnerClassesAttributeClass.new cp) := by
  unfold InnerClassesAttributeClass.new
  exact seqok_bind seqok_readU16 fun a =>
    seqok_bind seqok_readU16 fun b =>
    seqok_bind seqok_readU16 fun c =>
    seqok_bind seqok_readU16 fun d =>
    seqok_bind (seqok_liftO _) fun it =>
    seqok_bind (seqok_optParse _ (seqok_liftO _)) fun ot =>
    seqok_bind (seqok_optParse _ (seqok_liftO _)) fun nt =>
    seqok_bind (seqok_liftO _) fun ici =>
    seqok_bind (seqok_optMatch ot fun tag => seqok_liftO _) fun oci =>
    seqok_bind (seqok_optMatch nt fun tag => seqok_liftO _) fun inm =>
    seqok_pure _

theorem seqok_codeExc : SeqOk CodeAttributeException.new := by
  unfold CodeAttributeException.new
  exact seqok_bind seqok_readU16 fun a => seqok_bind seqok_readU16 fun b =>
    seqok_bind seqok_readU16 fun c => seqok_bind seqok_readU16 fun d =>
    seqok_pure _

theorem seqok_lnt : SeqOk LineNumberTableAttribute.new := by
  unfold LineNumberTableAttribute.new
  exact seqok_bind seqok_readU16 fun n =>
    seqok_bind (seqok_forN (seqok_bind seqok_readU16 fun s =>
      seqok_bind seqok_readU16 fun l => seqok_pure _) n) fun t => seqok_pure _

theorem seqok_ann (cp : List IRCpTag) : ∀ fuel : Nat,
    SeqOk (RuntimeAnnotationValue.new fuel cp) ∧
    SeqOk (RuntimeAnnotationItem.new fuel cp) := by
  intro fuel
  induction fuel with
  | zero => exact ⟨seqok_panicM _, seqok_panicM _⟩
  | succ f ih =>
      constructor
      · unfold RuntimeAnnotationValue.new
        refine seqok_bind seqok_readU8 fun tag => ?_
        split
        all_goals first
          | exact seqok_bind seqok_readU16 fun idx =>
              seqok_bind (seqok_liftO _) fun r => seqok_pure _
          | exact seqok_bind seqok_readU16 fun t₁ =>
              seqok_bind (seqok_liftO _) fun tn =>
              seqok_bind seqok_readU16 fun t₂ =>
              seqok_bind (seqok_liftO _) fun cn => seqok_pure _
          | exact seqok_bind ih.2 fun a => seqok_pure _
          | exact seqok_bind seqok_readU16 fun n =>
              seqok_bind (seqok_forN ih.1 n) fun vs => seqok_pure _
          | exact seqok_panicM _
      · unfold RuntimeAnnotationItem.new
        exact seqok_bind seqok_readU16 fun ty_idx =>
          seqok_bind (seqok_liftO _) fun ty_tag =>
          seqok_bind (seqok_liftO _) fun ty =>
          seqok_bind seqok_readU16 fun n =>
          seqok_bind (seqok_forN (seqok_bind seqok_readU16 fun ni =>
            seqok_bind (seqok_liftO _) fun nt =>
            seqok_bind (seqok_liftO _) fun nm =>
            seqok_bind ih.1 fun v => seqok_pure _) n) fun pairs =>
          seqok_pure _

theorem seqok_annValue (fuel : Nat) (cp : List IRCpTag) :
    SeqOk (RuntimeAnnotationValue.new fuel cp) :=
  (seqok_ann cp fuel).1

theorem seqok_annItem (fuel : Nat) (cp : List IRCpTag) :
    SeqOk (RuntimeAnnotationItem.new fuel cp) :=
  (seqok_ann cp fuel).2

theorem seqok_targetInfo (target_type : Nat) :
    SeqOk (RuntimeTypeAnnotationTargetInfo.read target_type) := by
  unfold RuntimeTypeAnnotationTargetInfo.read
  split
  all_goals first
    | exact seqok_pure _
    | exact seqok_panicM _
    | exact seqok_bind seqok_readU8 fun x => seqok_pure _
    | exact seqok_bind seqok_readU16 fun x => seqok_pure _
    | exact seqok_bind seqok_readU8 fun x =>
        seqok_bind seqok_readU8 fun y => seqok_pure _
    | exact seqok_bind seqok_readU16 fun x =>
        seqok_bind seqok_readU8 fun y => seqok_pure _
    | exact seqok_bind seqok_readU16 fun n =>
        seqok_bind (seqok_forN (seqok_bind seqok_readU16 fun a =>
          seqok_bind seqok_readU16 fun b =>
          seqok_bind seqok_readU16 fun c => seqok_pure _) n) fun t =>
        seqok_pure _

theorem seqok_typeAnn (fuel : Nat) (cp : List IRCpTag) :
    SeqOk (RuntimeTypeAnnotationItem.new fuel cp) := by
  unfold RuntimeTypeAnnotationItem.new
  exact seqok_bind seqok_readU8 fun tt =>
    seqok_bind (seqok_targetInfo tt) fun ti =>
    seqok_bind seqok_readU8 fun np =>
    seqok_bind (seqok_forN (seqok_bind seqok_readU8 fun a =>
      seqok_bind seqok_readU8 fun b => seqok_pure _) np) fun path =>
    seqok_bind seqok_readU16 fun tidx =>
    seqok_bind seqok_readU16 fun n =>
    seqok_bind (seqok_forN (seqok_bind seqok_readU16 fun ni =>
      seqok_bind (seqok_liftO _) fun nt =>
      seqok_bind (seqok_liftO _) fun nm =>
      seqok_bind (seqok_annValue fuel cp) fun v => seqok_pure _) n) fun pairs =>
    seqok_pure _

theorem seqok_bootstrapArgs (cp : List IRCpTag) (l : List Nat) :
    SeqOk (l.foldr
      (fun (idx : Nat) (acc : ParseM (List CPTagRef)) => do
        let r ← liftO (CPTagRef.from_cp cp idx)
        let rest ← acc
        pure (r :: rest))
      (pure [])) := by
  induction l with
  | nil => exact seqok_pure _
  | cons x xs ih =>
      exact seqok_bind (seqok_liftO _) fun r =>
        seqok_bind ih fun rest => seqok_pure _

theorem seqok_bootstrap (cp : List IRCpTag) :
    SeqOk (BootstrapMethodsMethod.new cp) := by
  unfold BootstrapMethodsMethod.new
  exact seqok_bind seqok_readU16 fun mi =>
    seqok_bind seqok_readU16 fun n =>
    seqok_bind (seqok_forN seqok_readU16 n) fun args =>
    seqok_bind (seqok_liftO _) fun method =>
    seqok_bind (seqok_bootstrapArgs cp args) fun refs => seqok_pure _

theorem seqok_lvt (cp : List IRCpTag) :
    SeqOk (LocalVariableTableEntry.new cp) := by
  unfold LocalVariableTableEntry.new
  exact seqok_bind seqok_readU16 fun a =>
    seqok_bind seqok_readU16 fun b =>
    seqok_bind seqok_readU16 fun c =>
    seqok_bind seqok_readU16 fun d =>
    seqok_bind seqok_readU16 fun e =>
    seqok_bind (seqok_liftO _) fun nm =>
    seqok_bind (seqok_liftO _) fun ds => seqok_pure _

theorem seqok_lvtt (cp : List IRCpTag) :
    SeqOk (LocalVariableTypeTableEntry.new cp) := by
  unfold LocalVariableTypeTableEntry.new
  exact seqok_bind seqok_readU16 fun a =>
    seqok_bind seqok_readU16 fun b =>
    seqok_bind seqok_readU16 fun c =>
    seqok_bind seqok_readU16 fun d =>
    seqok_bind seqok_readU16 fun e =>
    seqok_bind (seqok_liftO _) fun nm =>
    seqok_bind (seqok_liftO _) fun sg => seqok_pure _

theorem seqok_modReq (cp : List IRCpTag) : SeqOk (ModuleRequiresEntry.new cp) := by
  unfold ModuleRequiresEntry.new
  exact seqok_bind seqok_readU16 fun a =>
    seqok_bind seqok_readU16 fun b =>
    seqok_bind seqok_readU16 fun c =>
    seqok_bind (seqok_liftO _) fun m =>
    seqok_bind (seqok_optParse _ (seqok_liftO _)) fun v => seqok_pure _

theorem seqok_modExp (cp : List IRCpTag) : SeqOk (ModuleExportsEntry.new cp) := by
  unfold ModuleExportsEntry.new
  exact seqok_bind seqok_readU16 fun a =>
    seqok_bind seqok_readU16 fun b =>
    seqok_bind seqok_readU16 fun n =>
    seqok_bind (seqok_forN (seqok_bind seqok_readU16 fun idx =>
      seqok_liftO _) n) fun ex =>
    seqok_bind (seqok_liftO _) fun p => seqok_pure _

theorem seqok_modOpens (cp : List IRCpTag) : SeqOk (ModuleOpensEntry.new cp) := by
  unfold ModuleOpensEntry.new
  exact seqok_bind seqok_readU16 fun a =>
    seqok_bind seqok_readU16 fun b =>
    seqok_bind seqok_readU16 fun n =>
    seqok_bind (seqok_forN (seqok_bind seqok_readU16 fun idx =>
      seqok_liftO _) n) fun op =>
    seqok_bind (seqok_liftO _) fun p => seqok_pure _

theorem seqok_modProv (cp : List IRCpTag) : SeqOk (ModuleProvidesEntry.new cp) := by
  unfold ModuleProvidesEntry.new
  exact seqok_bind seqok_readU16 fun a =>
    seqok_bind seqok_readU16 fun b =>
    seqok_bind seqok_readU16 fun n =>
    seqok_bind (seqok_forN (seqok_bind seqok_readU16 fun idx =>
      seqok_liftO _) n) fun pr =>
    seqok_bind (seqok_liftO _) fun c => seqok_pure _

theorem seqok_ioAttrRead : SeqOk IOAttributeInfo.read := by
  unfold IOAttributeInfo.read
  exact seqok_bind seqok_readU16 fun ni =>
    seqok_bind seqok_readU32 fun len =>
    seqok_bind (seqok_readBytes len) fun info => seqok_pure _

theorem seqok_methodParam (cp : List IRCpTag) :
    SeqOk (MethodParametersParam.new cp) := by
  unfold MethodParametersParam.new
  exact seqok_bind seqok_readU16 fun idx =>
    seqok_bind (seqok_optParse _ (seqok_bind (seqok_liftO _) fun tag =>
      seqok_liftO _)) fun nm =>
    seqok_bind seqok_readU16 fun fl => seqok_pure _

theorem seqok_codeAttr (cp : List IRCpTag) :
    ∀ fuel : Nat, SeqOk (CodeAttribute.new fuel cp) := by
  intro fuel
  match fuel with
  | 0 => exact seqok_panicM _
  | f + 1 =>
      unfold CodeAttribute.new
      exact seqok_bind seqok_readU16 fun ms =>
        seqok_bind seqok_readU16 fun ml =>
        seqok_bind seqok_readU32 fun cl =>
        seqok_bind (seqok_forN seqok_readU8 cl) fun code =>
        seqok_bind seqok_readU16 fun el =>
        seqok_bind (seqok_forN seqok_codeExc el) fun et =>
        seqok_bind seqok_readU16 fun al =>
        seqok_bind (seqok_forN (seqok_bind seqok_ioAttrRead fun raw =>
          seqok_liftO _) al) fun ats =>
        seqok_pure _

theorem seqok_recordComp (cp : List IRCpTag) :
    ∀ fuel : Nat, SeqOk (RecordComponentInfo.new fuel cp) := by
  intro fuel
  match fuel with
  | 0 => exact seqok_panicM _
  | f + 1 =>
      unfold RecordComponentInfo.new
      exact seqok_bind seqok_readU16 fun ni =>
        seqok_bind seqok_readU16 fun di =>
        seqok_bind seqok_readU16 fun na =>
        seqok_bind (seqok_forN (seqok_bind seqok_ioAttrRead fun raw =>
          seqok_liftO _) na) fun ats =>
        seqok_bind (seqok_liftO _) fun nm =>
        seqok_bind (seqok_liftO _) fun ds =>
        seqok_pure _

theorem seqok_attrNew (name : CPUtf8Ref) (cp : List IRCpTag)
    (hname : name.data ≠ "SourceDebugExtension") :
    ∀ fuel : Nat, SeqOk (IRAttribute.new fuel name cp) := by
  intro fuel
  match fuel with
  | 0 => exact seqok_panicM _
  | f + 1 =>
      unfold IRAttribute.new
      split
      · -- "ConstantValue"
        refine seqok_bind seqok_readU16 fun idx => ?_
        refine seqok_bind (seqok_liftO _) fun tag => ?_
        split
        all_goals first | exact seqok_pure _ | exact seqok_panicM _
      · -- "Code"
        exact seqok_bind (seqok_codeAttr cp f) fun c => seqok_pure _
      · -- "StackMapTable"
        exact seqok_bind seqok_readU16 fun n =>
          seqok_bind (seqok_forN seqok_smf n) fun es => seqok_pure _
      · -- "Exceptions"
        exact seqok_bind seqok_readU16 fun n =>
          seqok_bind (seqok_forN (seqok_bind seqok_readU16 fun idx =>
            seqok_bind (seqok_liftO _) fun tag => seqok_liftO _) n) fun t =>
          seqok_pure _
      · -- "LineNumberTable"
        exact seqok_bind seqok_lnt fun v => seqok_pure _
      · -- "SourceFile"
        exact seqok_bind seqok_readU16 fun i =>
          seqok_bind (seqok_liftO _) fun tag =>
          seqok_bind (seqok_liftO _) fun r => seqok_pure _
      · -- "NestMembers"
        exact seqok_bind seqok_readU16 fun n =>
          seqok_bind (seqok_forN (seqok_bind seqok_readU16 fun i =>
            seqok_bind (seqok_liftO _) fun tg => seqok_liftO _) n) fun cs =>
          seqok_pure _
      · -- "InnerClasses"
        exact seqok_bind seqok_readU16 fun n =>
          seqok_bind (seqok_forN (seqok_innerCls cp) n) fun cs => seqok_pure _
      · -- "Synthetic"
        exact seqok_pure _
      · -- "Signature"
        exact seqok_bind seqok_readU16 fun i =>
          seqok_bind (seqok_liftO _) fun tag =>
          seqok_bind (seqok_liftO _) fun r => seqok_pure _
      · -- "NestHost"
        exact seqok_bind seqok_readU16 fun i =>
          seqok_bind (seqok_liftO _) fun tag =>
          seqok_bind (seqok_liftO _) fun r => seqok_pure _
      · -- "MethodParameters"
        exact seqok_bind seqok_readU8 fun n =>
          seqok_bind (seqok_forN (seqok_methodParam cp) n) fun ps => seqok_pure _
      · -- "Deprecated"
        exact seqok_pure _
      · -- "RuntimeVisibleAnnotations"
        exact seqok_bind seqok_readU16 fun n =>
          seqok_bind (seqok_forN (seqok_annItem f cp) n) fun anns => seqok_pure _
      · -- "RuntimeInvisibleAnnotations"
        exact seqok_bind seqok_readU16 fun n =>
          seqok_bind (seqok_forN (seqok_annItem f cp) n) fun anns => seqok_pure _
      · -- "RuntimeVisibleParameterAnnotations"
        exact seqok_bind seqok_readU8 fun np =>
          seqok_bind (seqok_forN (seqok_bind seqok_readU16 fun n =>
            seqok_forN (seqok_annItem f cp) n) np) fun ps => seqok_pure _
      · -- "RuntimeInvisibleParameterAnnotations"
        exact seqok_bind seqok_readU8 fun np =>
          seqok_bind (seqok_forN (seqok_bind seqok_readU16 fun n =>
            seqok_forN (seqok_annItem f cp) n) np) fun ps => seqok_pure _
      · -- "Record"
        exact seqok_bind seqok_readU16 fun n =>
          seqok_bind (seqok_forN (seqok_recordComp cp f) n) fun cs => seqok_pure _
      · -- "BootstrapMethods"
        exact seqok_bind seqok_readU16 fun n =>
          seqok_bind (seqok_forN (seqok_bootstrap cp) n) fun ms => seqok_pure _
      · -- "PermittedSubclasses"
        exact seqok_bind seqok_readU16 fun n =>
          seqok_bind (seqok_forN (seqok_bind seqok_readU16 fun i =>
            seqok_liftO _) n) fun cs => seqok_pure _
      · -- "SourceDebugExtension": excluded by hypothesis
        rename_i heq
        exact absurd heq hname
      · -- "LocalVariableTable"
        exact seqok_bind seqok_readU16 fun n =>
          seqok_bind (seqok_forN (seqok_lvt cp) n) fun t => seqok_pure _
      · -- "LocalVariableTypeTable"
        exact seqok_bind seqok_readU16 fun n =>
          seqok_bind (seqok_forN (seqok_lvtt cp) n) fun t => seqok_pure _
      · -- "EnclosingMethod"
        exact seqok_bind seqok_readU16 fun ci =>
          seqok_bind seqok_readU16 fun mi =>
          seqok_bind (seqok_liftO _) fun cls =>
          seqok_bind (seqok_optParse _ (seqok_liftO _)) fun m => seqok_pure _
      · -- "RuntimeVisibleTypeAnnotations"
        exact seqok_bind seqok_readU16 fun n =>
          seqok_bind (seqok_forN (seqok_typeAnn f cp) n) fun anns => seqok_pure _
      · -- "RuntimeInvisibleTypeAnnotations"
        exact seqok_bind seqok_readU16 fun n =>
          seqok_bind (seqok_forN (seqok_typeAnn f cp) n) fun anns => seqok_pure _
      · -- "AnnotationDefault"
        exact seqok_bind (seqok_annValue f cp) fun v => seqok_pure _
      · -- "Module"
        exact seqok_bind seqok_readU16 fun a =>
          seqok_bind seqok_readU16 fun b =>
          seqok_bind seqok_readU16 fun c =>
          seqok_bind seqok_readU16 fun n₁ =>
          seqok_bind (seqok_forN (seqok_modReq cp) n₁) fun rq =>
          seqok_bind seqok_readU16 fun n₂ =>
          seqok_bind (seqok_forN (seqok_modExp cp) n₂) fun ex =>
          seqok_bind seqok_readU16 fun n₃ =>
          seqok_bind (seqok_forN (seqok_modOpens cp) n₃) fun op =>
          seqok_bind seqok_readU16 fun n₄ =>
          seqok_bind (seqok_forN (seqok_bind seqok_readU16 fun i =>
            seqok_liftO _) n₄) fun us =>
          seqok_bind seqok_readU16 fun n₅ =>
          seqok_bind (seqok_forN (seqok_modProv cp) n₅) fun pv =>
          seqok_bind (seqok_liftO _) fun mn =>
          seqok_bind (seqok_optParse _ (seqok_liftO _)) fun mv =>
          seqok_pure _
      · -- "ModulePackages"
        exact seqok_bind seqok_readU16 fun n =>
          seqok_bind (seqok_forN (seqok_bind seqok_readU16 fun i =>
            seqok_liftO _) n) fun ps => seqok_pure _
      · -- "ModuleMainClass"
        exact seqok_bind seqok_readU16 fun i =>
          seqok_bind (seqok_liftO _) fun c => seqok_pure _
      · -- unrecognized names abort
        exact seqok_panicM _

/-- C5.  Truncation is detected, never partially decoded: for every
attribute name (other than `SourceDebugExtension`, whose implied layout
is by definition the whole remaining body, so that no body is shorter
than it), every pool, and every body the decoder accepts while consuming
`k` bytes, decoding any strict prefix of those `k` bytes — a body shorter
than the layout the name implies — fails with the `Truncated` typed error
(`IRClassfileError::Truncated`, the embedding of the byte cursor's EOF
error), and in particular never returns a partially-decoded attribute.
The consumed count `k` is the name's implied layout on this input: the
decoder reads strictly left to right (`seqok_attrNew`). -/
theorem c5_truncated_attribute (fuel : Nat) (name : CPUtf8Ref)
    (cp : List IRCpTag) (body : List Nat) (a : IRAttribute) (k : Nat)
    (hname : name.data ≠ "SourceDebugExtension")
    (hok : IRAttribute.new fuel name cp body 0 = .ok (a, k))
    (m : Nat) (hm : m < k) :
    IRAttribute.new fuel name cp (body.take m) 0 = .error .Truncated :=
  (seqok_attrNew name cp hname fuel body 0 a k hok).2.2 m (Nat.zero_le m) hm

theorem c5_truncated_attribute_witness :
    (⟨"SourceFile", 7⟩ : CPUtf8Ref).data ≠ "SourceDebugExtension" ∧
    IRAttribute.new 1 ⟨"SourceFile", 7⟩ [.Utf8 "x"] [0, 1] 0 =
      .ok (.SourceFile ⟨"x", 1⟩, 2) ∧
    1 < 2 ∧
    IRAttribute.new 1 ⟨"SourceFile", 7⟩ [.Utf8 "x"] ([0, 1].take 1) 0 =
      .error .Truncated :=
  ⟨by decide, rfl, by decide,
    c5_truncated_attribute 1 ⟨"SourceFile", 7⟩ [.Utf8 "x"] [0, 1]
      (.SourceFile ⟨"x", 1⟩) 2 (by decide) rfl 1 (by decide)⟩

end Maya
